/-
  Verification of the MERCAT confidential-asset codebase
  (cryptography/src/asset_proofs/correctness_proof.rs and
  mercat/common/src/{validate,justify,account_create,account_transfer}.rs)
  against its natural-language specification.

  Modelling conventions.
  The Ristretto group is a cyclic group of prime order; we model it by its
  exponent group: `Point` is `ZMod curveOrder`, a point is identified with its
  discrete logarithm with respect to a fixed generator, point addition is
  addition in `ZMod curveOrder`, and scalar multiplication is multiplication.
  This is an isomorphism of `Scalar`-modules, so every equation between group
  expressions holds in the model iff it holds in the group, and every concrete
  counterexample in the model is realized by actual Ristretto points.
  Machine integers (u32 ids, tx ids, counters) are modelled as `Nat`.
  The filesystem-backed artifact store is modelled as association lists inside
  a `Store` structure; `load_object` is association-list lookup and
  `save_object` prepends (the lookup returns the most recent save).
  Library calls that live in crates outside the given sources (the proof
  verifiers of the cryptography crate, schnorrkel signing, SCALE codec) are
  modelled as explicit parameters in an `Env` structure or as small abstract
  constructors, as documented at each definition.
-/
import Mathlib

set_option maxHeartbeats 1000000

/-- Order of the Ristretto group (the prime ℓ of Curve25519). -/
abbrev curveOrder : Nat := 7237005577332262213973186563042994240857116359379907606001950938285454250989

/-- Scalars: integers modulo the group order (`Scalar` of curve25519-dalek). -/
abbrev Scalar : Type := ZMod curveOrder

/-- Ristretto points, modelled by their exponents (see the header comment). -/
abbrev Point : Type := ZMod curveOrder

/-- Pedersen generators: the value base `B` and the randomness base
`B_blinding` (`bulletproofs::PedersenGens`). -/
structure PedersenGens where
  B : Point
  B_blinding : Point
deriving DecidableEq

/-- ElGamal ciphertext: a pair of points (`CipherText` in the cryptography
crate). -/
structure CipherText where
  x : Point
  y : Point
deriving DecidableEq

/-- Modelled from the spec: the cryptography crate's ElGamal module is not
among the given sources; §4.1 of the spec states that `CipherText` supports
`+` componentwise (the additive homomorphism). -/
instance : Add CipherText :=
  ⟨fun a b => ⟨a.x + b.x, a.y + b.y⟩⟩

/-- Modelled from the spec: componentwise subtraction of ciphertexts
(§4.1 of the spec, `−`). -/
instance : Sub CipherText :=
  ⟨fun a b => ⟨a.x - b.x, a.y - b.y⟩⟩

/-- Commitment witness: the plaintext value as a scalar and the blinding
factor (`CommitmentWitness`). -/
structure CommitmentWitness where
  value : Scalar
  blinding : Scalar
deriving DecidableEq

/-- Errors of the asset-proof layer (`AssetProofError`); only the variant
used by the correctness proof is needed. -/
inductive AssetProofError where
  | correctnessFinalResponseVerificationError (check : Nat)
deriving DecidableEq

/-- The initial message of the correctness proof: two points
(`CorrectnessInitialMessage { a, b }`). -/
structure CorrectnessInitialMessage where
  a : Point
  b : Point
deriving DecidableEq

/-- The state of the prover after the first round
(`CorrectnessProver { w, u }`). -/
structure CorrectnessProver where
  w : CommitmentWitness
  u : Scalar
deriving DecidableEq

/-- `CorrectnessProverAwaitingChallenge::generate_initial_message`
(correctness_proof.rs lines 101-117): with first-round randomness `u`
(`rand_commitment`, drawn from the transcript rng in the source), produce
the prover state and the initial message `(a = u·pub_key, b = u·B_blinding)`. -/
def generateInitialMessage (pubKey : Point) (pcGens : PedersenGens)
    (w : CommitmentWitness) (u : Scalar) :
    CorrectnessProver × CorrectnessInitialMessage :=
  (⟨w, u⟩, ⟨u * pubKey, u * pcGens.B_blinding⟩)

/-- `CorrectnessProver::apply_challenge` (correctness_proof.rs lines 120-124):
the final response `z = u + c·blinding`. -/
def applyChallenge (p : CorrectnessProver) (c : Scalar) : Scalar :=
  p.u + c * p.w.blinding

/-- `CorrectnessVerifier { value, pub_key, cipher, pc_gens }`
(correctness_proof.rs lines 126-138). -/
structure CorrectnessVerifier where
  value : Nat
  pub_key : Point
  cipher : CipherText
  pc_gens : PedersenGens
deriving DecidableEq

/-- `CorrectnessVerifier::verify` (correctness_proof.rs lines 160-179):
with `y' = cipher.y − value·B`, ensure `z·pub_key = a + c·cipher.x`
(else error `check: 1`), then `z·B_blinding = b + c·y'`
(else error `check: 2`). -/
def CorrectnessVerifier.verify (v : CorrectnessVerifier) (challenge : Scalar)
    (im : CorrectnessInitialMessage) (z : Scalar) :
    Except AssetProofError Unit :=
  if z * v.pub_key = im.a + challenge * v.cipher.x then
    if z * v.pc_gens.B_blinding =
        im.b + challenge * (v.cipher.y - (v.value : Scalar) * v.pc_gens.B) then
      Except.ok ()
    else
      Except.error (AssetProofError.correctnessFinalResponseVerificationError 2)
  else
    Except.error (AssetProofError.correctnessFinalResponseVerificationError 1)

/-- The encryption relation as the spec's §4.4 states it, written down for
comparison with the verifier: `ct = (x = r·B_blinding, y = v·B + r·pk)`.
(The ElGamal module itself is not among the given sources; this definition
follows the spec's words and is the relation claim C1 quantifies over.) -/
def specStatedEncrypt (pk : Point) (pcGens : PedersenGens)
    (w : CommitmentWitness) : CipherText :=
  ⟨w.blinding * pcGens.B_blinding, w.value * pcGens.B + w.blinding * pk⟩

/-- The encryption relation that the verifier's two equations actually encode:
`ct = (x = r·pk, y = v·B + r·B_blinding)` — the spec's §4.4 display swaps the
roles of `pk` and `B_blinding` in the ciphertext. -/
def verifierEncrypt (pk : Point) (pcGens : PedersenGens)
    (w : CommitmentWitness) : CipherText :=
  ⟨w.blinding * pk, w.value * pcGens.B + w.blinding * pcGens.B_blinding⟩

/- ================= MERCAT data model (mercat/common) ================= -/

/-- Transaction substates (`TxSubstate`). -/
inductive TxSubstate where
  | Started
  | Validated
  | Rejected
deriving DecidableEq

/-- States of an asset-issuance transaction (`AssetTxState`). -/
inductive AssetTxState where
  | Initialization (s : TxSubstate)
  | Justification (s : TxSubstate)
deriving DecidableEq

/-- States of a confidential-transfer transaction (`TxState` /
`TransferTxState`). -/
inductive TransferTxState where
  | Initialization (s : TxSubstate)
  | Finalization (s : TxSubstate)
  | Justification (s : TxSubstate)
deriving DecidableEq

/-- A schnorrkel signature, modelled abstractly as the signing context label,
the signing key, and the signed message (schnorrkel is a third-party crate;
this constructor model records exactly which key signed which bytes under
which domain, which is what the claims about re-signing need). -/
structure Signature (M : Type) where
  ctx : String
  key : Nat
  msg : M
deriving DecidableEq

/-- An encrypted amount is an ElGamal ciphertext (`EncryptedAmount`). -/
abbrev EncryptedAmount : Type := CipherText

/-- `AccountMemo { owner_enc_pub_key, owner_sign_pub_key,
last_processed_tx_counter }`. -/
structure AccountMemo where
  owner_enc_pub_key : Point
  owner_sign_pub_key : Nat
  last_processed_tx_counter : Nat
deriving DecidableEq

/-- `PubAccount { id, enc_asset_id, enc_balance, memo }`. -/
structure PubAccount where
  id : Nat
  enc_asset_id : EncryptedAmount
  enc_balance : EncryptedAmount
  memo : AccountMemo
deriving DecidableEq

/-- `OrderedPubAccount { pub_account, last_processed_tx_counter }` — the
on-chain form of a user account. -/
structure OrderedPubAccount where
  pub_account : PubAccount
  last_processed_tx_counter : Option Nat
deriving DecidableEq

/-- Content of an account-creation transaction; the claims need its
`pub_account` field. -/
structure PubAccountTxContent where
  pub_account : PubAccount
deriving DecidableEq

/-- An account-creation transaction (`PubAccountTx`): content plus the
account holder's signature. The source signs
`account_tx.content.pub_account.encode()` (account_create.rs line 76), so the
signed message is the `PubAccount`. -/
structure PubAccountTx where
  content : PubAccountTxContent
  sig : Signature PubAccount
deriving DecidableEq

/-- `OrderedPubAccountTx` as loaded by `validate_account`; the claims need
its `account_tx` field. -/
structure OrderedPubAccountTx where
  account_tx : PubAccountTx
deriving DecidableEq

/-- The memo of a transfer transaction
(`init_data.content.memo` in the source): account ids and the encrypted
amounts under the sender's and receiver's keys. -/
structure TransferMemo where
  sndr_account_id : Nat
  rcvr_account_id : Nat
  enc_amount_using_sndr : EncryptedAmount
  enc_amount_using_rcvr : EncryptedAmount
deriving DecidableEq

/-- Content of an `InitializedTransferTx`. -/
structure InitializedTransferTxContent where
  memo : TransferMemo
deriving DecidableEq

/-- `InitializedTransferTx`: content plus the sender's signature over the
content (account_transfer.rs line 156). -/
structure InitializedTransferTx where
  content : InitializedTransferTxContent
  sig : Signature InitializedTransferTxContent
deriving DecidableEq

/-- Content of a `FinalizedTransferTx`: wraps the initialized transaction. -/
structure FinalizedTransferTxContent where
  init_data : InitializedTransferTx
deriving DecidableEq

/-- `FinalizedTransferTx`: content plus the receiver's signature. -/
structure FinalizedTransferTx where
  content : FinalizedTransferTxContent
  sig : Signature FinalizedTransferTxContent
deriving DecidableEq

/-- `JustifiedTransferTx`: the finalized transaction plus the mediator's
signature over it (justify.rs line 319: the message is
`justified_tx.content.encode()`). -/
structure JustifiedTransferTx where
  content : FinalizedTransferTx
  sig : Signature FinalizedTransferTx
deriving DecidableEq

/-- Memo of an asset-issuance transaction; the claims need the encrypted
issued amount. -/
structure AssetMemo where
  enc_issued_amount : EncryptedAmount
deriving DecidableEq

/-- Content of an `InitializedAssetTx` (issuer account id, encrypted asset
id, memo). -/
structure InitializedAssetTxContent where
  account_id : Nat
  enc_asset_id : EncryptedAmount
  memo : AssetMemo
deriving DecidableEq

/-- `InitializedAssetTx`: content plus the issuer's signature. -/
structure InitializedAssetTx where
  content : InitializedAssetTxContent
  sig : Signature InitializedAssetTxContent
deriving DecidableEq

/-- `JustifiedAssetTx`: the initialized asset transaction plus the mediator's
signature over it (justify.rs line 168). -/
structure JustifiedAssetTx where
  content : InitializedAssetTx
  sig : Signature InitializedAssetTx
deriving DecidableEq

/-- `MediatorAccount { encryption_key, signing_key }` (the mediator's
off-chain secrets); the encryption keypair is modelled by its public point
and secret scalar. -/
structure MediatorAccount where
  enc_pub_key : Point
  enc_secret_key : Scalar
  signing_key : Nat
deriving DecidableEq

/-- `OrderingState { last_processed_tx_counter, last_pending_tx_counter,
tx_id }` (lib.rs, passed through by the validator). -/
structure OrderingState where
  last_processed_tx_counter : Option Nat
  last_pending_tx_counter : Nat
  tx_id : Nat
deriving DecidableEq

/-- `Direction` of a balance update (lib.rs). -/
inductive Direction where
  | Incoming
  | Outgoing
deriving DecidableEq

/-- `ValidationResult { user, ticker, amount, direction }` (lib.rs): the
outcome of validating one side of one transaction; `amount = none` means no
balance change. -/
structure ValidationResult where
  user : String
  ticker : String
  amount : Option EncryptedAmount
  direction : Direction
deriving DecidableEq

/-- Modelled from the spec: `ValidationResult::error` lives in lib.rs, which
is not among the given sources. Per §7 of the spec, balance updates occur
only on `Validated` outcomes, so an error result carries `amount = none`
(the commit loop then applies no delta; the direction of an error result is
never inspected). -/
def ValidationResult.error (user ticker : String) : ValidationResult :=
  ⟨user, ticker, none, Direction.Incoming⟩

/-- Errors of the mercat CLI layer (`mercat_common::errors::Error`); only
the shapes that the control flow distinguishes are modelled. -/
inductive Error where
  | objectLoadError
  | libraryError
  | decryptionError
  | transactionIsNotReadyForValidation
deriving DecidableEq

/-- The byte payload (`data: Vec<u8>`) of a stored instruction, modelled as
the SCALE-encoded protocol message it holds. A canonical length-prefixed
codec means decoding as type `T` succeeds exactly when the bytes are an
encoding of a `T` value; `garbage` stands for bytes that decode as nothing. -/
inductive TxData where
  | justifiedTransfer (tx : JustifiedTransferTx)
  | finalizedTransfer (tx : FinalizedTransferTx)
  | initializedAsset (tx : InitializedAssetTx)
  | justifiedAsset (tx : JustifiedAssetTx)
  | garbage
deriving DecidableEq

/-- `JustifiedTransferTx::decode` on an instruction's data. -/
def decodeJustifiedTransferTx : TxData → Option JustifiedTransferTx
  | TxData.justifiedTransfer tx => some tx
  | _ => none

/-- `FinalizedTransferTx::decode` on an instruction's data. -/
def decodeFinalizedTransferTx : TxData → Option FinalizedTransferTx
  | TxData.finalizedTransfer tx => some tx
  | _ => none

/-- `InitializedAssetTx::decode` on an instruction's data. -/
def decodeInitializedAssetTx : TxData → Option InitializedAssetTx
  | TxData.initializedAsset tx => some tx
  | _ => none

/-- A stored transfer instruction (`TransferInstruction` / `CTXInstruction`):
a state tag and the transaction bytes. -/
structure TransferInstruction where
  state : TransferTxState
  data : TxData
deriving DecidableEq

/-- A stored asset-issuance instruction (`AssetInstruction` /
`Instruction`). -/
structure AssetInstruction where
  state : AssetTxState
  data : TxData
deriving DecidableEq

/-- Association-list lookup, first match wins (models `load_object`:
the most recent `save_object` under a name is what a later load sees). -/
def alookup {α β : Type} [DecidableEq α] : List (α × β) → α → Option β
  | [], _ => none
  | (k, v) :: rest, key => if k = key then some v else alookup rest key

/-- Association-list save (models `save_object`: prepend, shadowing any
older entry under the same name). -/
def asave {α β : Type} (l : List (α × β)) (k : α) (v : β) : List (α × β) :=
  (k, v) :: l

/-- The artifact store (the `db_dir` tree), holding every object the five
source files load or save, keyed the way the corresponding file names are
built. -/
structure Store where
  /-- `get_user_ticker_from`: account id ↦ (user, ticker, creation tx id)
  (the account map maintained by `update_account_map`). -/
  accountMap : List (Nat × (String × String × Nat))
  /-- `on_chain/<user>/public_account_<ticker>`: the on-chain user
  accounts, keyed by (user, ticker). -/
  pubAccounts : List ((String × String) × OrderedPubAccount)
  /-- `on_chain/<mediator>/mediator_public_account`. -/
  mediatorAccounts : List (String × AccountMemo)
  /-- `off_chain/<mediator>/secret_account`. -/
  mediatorSecrets : List (String × MediatorAccount)
  /-- `tx_<tx_id>_<name>_<state>` for transfers, keyed by
  (tx id, name, state). -/
  transferInstructions : List ((Nat × String × TransferTxState) × TransferInstruction)
  /-- `tx_<tx_id>_<name>_<state>` for issuances, keyed by
  (tx id, name, state). -/
  assetInstructions : List ((Nat × String × AssetTxState) × AssetInstruction)
  /-- `account_tx_<tx_id>_<user>_<ticker>`. -/
  accountTxs : List ((Nat × String × String) × OrderedPubAccountTx)
  /-- `asset_ids` (the allowlist, read by `get_asset_ids`). -/
  validAssetIds : List Scalar
  /-- `off_chain/common/last_validated_tx_id`. -/
  lastValidatedTxId : Option Nat
deriving DecidableEq

/-- The library and helper functions the five source files call that live
outside the given sources (the cryptography crate's verifiers and mediator
helpers, and lib.rs helpers). Each is an abstract parameter; a claim that
depends on one of their outcomes carries that outcome as a hypothesis.
`Option`-valued fields model fallible calls (`none` = the call errored). -/
structure Env where
  /-- `TransactionValidator::verify_transaction` (cryptography crate):
  arguments are the justified transaction, the sender and receiver accounts,
  the mediator's signing public key, and the pending balance. -/
  verifyTransferTx : JustifiedTransferTx → PubAccount → PubAccount → Nat → EncryptedAmount → Bool
  /-- `AssetValidator::verify_asset_transaction` (cryptography crate). -/
  verifyAssetTx : JustifiedAssetTx → PubAccount → Point → Nat → Bool
  /-- `AccountValidator::verify` (cryptography crate): the account-creation
  transaction and the asset-id allowlist. -/
  verifyAccount : PubAccountTx → List Scalar → Bool
  /-- `AssetMediator::justify_asset_transaction` (cryptography crate). -/
  justifyAssetIssuanceTx : InitializedAssetTx → PubAccount → MediatorAccount → Option JustifiedAssetTx
  /-- `CtxMediator::justify_transaction` (cryptography crate): finalized
  transaction, mediator secrets, sender and receiver signing public keys,
  asset id. -/
  justifyTransferTx : FinalizedTransferTx → MediatorAccount → Nat → Nat → Scalar → Option JustifiedTransferTx
  /-- `last_ordering_state` (lib.rs): user, last processed counter, tx id. -/
  lastOrderingState : String → Option Nat → Nat → Option OrderingState
  /-- `compute_enc_pending_balance` (lib.rs): user, ordering state, last
  processed counter, current balance. -/
  computePendingBalance : String → OrderingState → Option Nat → EncryptedAmount → Option EncryptedAmount
  /-- `debug_decrypt` (lib.rs): account id, encrypted amount; the validator
  calls it inside `debug!` logging and propagates its failure. -/
  debugDecrypt : Nat → EncryptedAmount → Option Nat
  /-- `asset_id_from_ticker` (cryptography crate). -/
  assetIdFromTicker : String → Option Scalar
  /-- The ElGamal encryption of the CHEAT asset id under a public key with
  blinding one (justify.rs lines 157-165; the ElGamal module is outside the
  given sources). -/
  encryptAssetId : Point → Scalar → EncryptedAmount

/- ================= Validator (mercat/common/src/validate.rs) ================= -/

/-- `validate_account` (validate.rs lines 328-388): resolve the account id to
(user, ticker, creation tx id), load the account-creation transaction, verify
it against the allowlist, and on success publish
`OrderedPubAccount { pub_account, last_processed_tx_counter: Some(tx_id) }`
to the user's on-chain account file. Any failure returns the error without
saving anything. -/
def validateAccount (env : Env) (store : Store) (accountId : Nat) :
    Except Error Store :=
  match alookup store.accountMap accountId with
  | none => Except.error Error.objectLoadError
  | some (user, ticker, txId) =>
    match alookup store.accountTxs (txId, user, ticker) with
    | none => Except.error Error.objectLoadError
    | some orderedUserAccountTx =>
      if env.verifyAccount orderedUserAccountTx.account_tx store.validAssetIds then
        Except.ok { store with
          pubAccounts := asave store.pubAccounts (user, ticker)
            { pub_account := orderedUserAccountTx.account_tx.content.pub_account,
              last_processed_tx_counter := some txId } }
      else
        Except.error Error.libraryError

/-- `validate_asset_issuance` (validate.rs lines 218-326): resolve the
issuer, load the mediator's public account and the issuer's account, verify
the justified issuance, save the transaction under
`Justification(Validated)`, and report the encrypted issued amount as an
incoming delta for the issuer. Every failure is converted into an error
`ValidationResult` (with `"n/a"` names when the issuer could not be
resolved). -/
def validateAssetIssuance (env : Env) (store : Store)
    (assetTx : JustifiedAssetTx) (mediator : String) (txId : Nat) :
    Store × ValidationResult :=
  match alookup store.accountMap assetTx.content.content.account_id with
  | none => (store, ValidationResult.error "n/a" "n/a")
  | some (issuer, ticker, _) =>
    match alookup store.mediatorAccounts mediator with
    | none => (store, ValidationResult.error issuer ticker)
    | some mediatorAccount =>
      match alookup store.pubAccounts (issuer, ticker) with
      | none => (store, ValidationResult.error issuer ticker)
      | some issuerOrderedPubAccount =>
        if env.verifyAssetTx assetTx issuerOrderedPubAccount.pub_account
            mediatorAccount.owner_enc_pub_key mediatorAccount.owner_sign_pub_key then
          ({ store with
              assetInstructions := asave store.assetInstructions
                (txId, issuer, AssetTxState.Justification TxSubstate.Validated)
                { state := AssetTxState.Justification TxSubstate.Validated,
                  data := TxData.justifiedAsset assetTx } },
           { user := issuer, ticker := ticker,
             amount := some assetTx.content.content.memo.enc_issued_amount,
             direction := Direction.Incoming })
        else
          (store, ValidationResult.error issuer ticker)

/-- Outcome of a call that can diverge by panicking (`unwrap` on a decode
failure in `process_transaction`, validate.rs line 398). -/
inductive Outcome (α : Type) where
  | panicked
  | ok (a : α)
deriving DecidableEq

/-- `validate_transaction` (validate.rs lines 415-607) together with the
inlined `process_transaction` (lines 390-413): resolve sender and receiver,
load the `Justification(Started)` instruction saved under the mediator's
name, the mediator's public account, and both user accounts; decode the
instruction bytes (`unwrap`: a decode failure panics); verify; on success
save the instruction under `Justification(Validated)` under the sender's
name and report the two deltas from the argument transaction's memo. Every
load or verification failure yields a pair of error results. -/
def validateTransaction (env : Env) (store : Store) (tx : JustifiedTransferTx)
    (mediator : String) (pendingBalance : EncryptedAmount) (txId : Nat) :
    Outcome (Store × ValidationResult × ValidationResult) :=
  match alookup store.accountMap tx.content.content.init_data.content.memo.sndr_account_id with
  | none => Outcome.ok (store, ValidationResult.error "n/a" "n/a", ValidationResult.error "n/a" "n/a")
  | some (sender, _, _) =>
  match alookup store.accountMap tx.content.content.init_data.content.memo.rcvr_account_id with
  | none => Outcome.ok (store, ValidationResult.error "n/a" "n/a", ValidationResult.error "n/a" "n/a")
  | some (receiver, ticker, _) =>
  match alookup store.transferInstructions
      (txId, mediator, TransferTxState.Justification TxSubstate.Started) with
  | none => Outcome.ok (store, ValidationResult.error sender ticker, ValidationResult.error receiver ticker)
  | some instruction =>
  match alookup store.mediatorAccounts mediator with
  | none => Outcome.ok (store, ValidationResult.error sender ticker, ValidationResult.error receiver ticker)
  | some mediatorAccount =>
  match alookup store.pubAccounts (sender, ticker) with
  | none => Outcome.ok (store, ValidationResult.error sender ticker, ValidationResult.error receiver ticker)
  | some senderOrderedPubAccount =>
  match alookup store.pubAccounts (receiver, ticker) with
  | none => Outcome.ok (store, ValidationResult.error sender ticker, ValidationResult.error receiver ticker)
  | some receiverOrderedPubAccount =>
  match decodeJustifiedTransferTx instruction.data with
  | none => Outcome.panicked
  | some decodedTx =>
  if env.verifyTransferTx decodedTx senderOrderedPubAccount.pub_account
      receiverOrderedPubAccount.pub_account mediatorAccount.owner_sign_pub_key
      pendingBalance then
    Outcome.ok
      ({ store with
          transferInstructions := asave store.transferInstructions
            (txId, sender, TransferTxState.Justification TxSubstate.Validated)
            { instruction with state := TransferTxState.Justification TxSubstate.Validated } },
       { user := sender, ticker := ticker,
         amount := some tx.content.content.init_data.content.memo.enc_amount_using_sndr,
         direction := Direction.Outgoing },
       { user := receiver, ticker := ticker,
         amount := some tx.content.content.init_data.content.memo.enc_amount_using_rcvr,
         direction := Direction.Incoming })
  else
    Outcome.ok (store, ValidationResult.error sender ticker, ValidationResult.error receiver ticker)

/-- The transactions `load_all_unverified_and_ready` hands to the validation
loop (`CoreTransaction`, lib.rs); `notReady` stands for any variant that is
not ready for validation (the loop's catch-all arm). -/
inductive CoreTransaction where
  | issueJustify (issue_tx : JustifiedAssetTx) (tx_id : Nat) (mediator : String)
  | transferJustify (tx : JustifiedTransferTx) (tx_id : Nat) (mediator : String)
  | account (account_tx : PubAccountTx) (tx_id : Nat)
  | notReady
deriving DecidableEq

/-- The tx id a loop iteration feeds into `last_tx_id`. -/
def CoreTransaction.txId : CoreTransaction → Nat
  | CoreTransaction.issueJustify _ txId _ => txId
  | CoreTransaction.transferJustify _ txId _ => txId
  | CoreTransaction.account _ txId => txId
  | CoreTransaction.notReady => 0

/-- State threaded through the validation loop of `validate_all_pending`:
the store, the accumulated `results`, and `last_tx_id`. -/
structure LoopState where
  store : Store
  results : List ValidationResult
  lastTxId : Option Nat
deriving DecidableEq

/-- Outcome of one iteration (or of the whole loop) of
`validate_all_pending`: a panic, an error that aborts the pass (`?`), or the
next loop state. -/
inductive LoopOutcome where
  | panicked
  | failed (e : Error)
  | next (s : LoopState)
deriving DecidableEq

/-- One iteration of the loop in `validate_all_pending` (validate.rs lines
43-110). The issuance and account arms never abort the pass (the account
arm logs and ignores `validate_account` errors); the transfer arm first
resolves the sender, loads the sender's account, computes the ordering
state and the pending balance and decrypts it for logging — each of these
propagates failure with `?`, aborting the pass — and then calls
`validate_transaction`. Every arm then advances
`last_tx_id := Some(max(last_tx_id.unwrap_or_default(), tx_id))`. -/
def validateStep (env : Env) (s : LoopState) :
    CoreTransaction → LoopOutcome
  | CoreTransaction.issueJustify issueTx txId mediator =>
    LoopOutcome.next ⟨(validateAssetIssuance env s.store issueTx mediator txId).1,
      s.results ++ [(validateAssetIssuance env s.store issueTx mediator txId).2],
      some (Nat.max (s.lastTxId.getD 0) txId)⟩
  | CoreTransaction.transferJustify tx txId mediator =>
    match alookup s.store.accountMap tx.content.content.init_data.content.memo.sndr_account_id with
    | none => LoopOutcome.failed Error.objectLoadError
    | some (sender, ticker, _) =>
    match alookup s.store.pubAccounts (sender, ticker) with
    | none => LoopOutcome.failed Error.objectLoadError
    | some senderOrderedPubAccount =>
    match env.lastOrderingState sender
        senderOrderedPubAccount.last_processed_tx_counter txId with
    | none => LoopOutcome.failed Error.libraryError
    | some orderingState =>
    match env.computePendingBalance sender orderingState
        senderOrderedPubAccount.last_processed_tx_counter
        senderOrderedPubAccount.pub_account.enc_balance with
    | none => LoopOutcome.failed Error.libraryError
    | some pendingBalance =>
    match env.debugDecrypt tx.content.content.init_data.content.memo.sndr_account_id
        pendingBalance with
    | none => LoopOutcome.failed Error.decryptionError
    | some _ =>
    match validateTransaction env s.store tx mediator pendingBalance txId with
    | Outcome.panicked => LoopOutcome.panicked
    | Outcome.ok (store1, senderResult, receiverResult) =>
      LoopOutcome.next ⟨store1, s.results ++ [senderResult, receiverResult],
        some (Nat.max (s.lastTxId.getD 0) txId)⟩
  | CoreTransaction.account accountTx txId =>
    match validateAccount env s.store accountTx.content.pub_account.id with
    | Except.error _ =>
      LoopOutcome.next ⟨s.store, s.results, some (Nat.max (s.lastTxId.getD 0) txId)⟩
    | Except.ok store1 =>
      LoopOutcome.next ⟨store1, s.results, some (Nat.max (s.lastTxId.getD 0) txId)⟩
  | CoreTransaction.notReady =>
    LoopOutcome.failed Error.transactionIsNotReadyForValidation

/-- The whole validation loop of `validate_all_pending` (lines 43-110). -/
def runLoop (env : Env) (s : LoopState) : List CoreTransaction → LoopOutcome
  | [] => LoopOutcome.next s
  | tx :: rest =>
    match validateStep env s tx with
    | LoopOutcome.panicked => LoopOutcome.panicked
    | LoopOutcome.failed e => LoopOutcome.failed e
    | LoopOutcome.next s1 => runLoop env s1 rest

/-- Drop every occurrence of a key from a key list. -/
def removeKey (k : String × String) : List (String × String) → List (String × String)
  | [] => []
  | a :: rest => if a = k then removeKey k rest else a :: removeKey k rest

/-- The distinct (user, ticker) accounts touched by the pass (validate.rs
lines 114-129: all results whose user is not `"n/a"`, collected into a
`HashSet`; modelled as first-occurrence deduplication — the commit saves of
distinct accounts are independent, so the iteration order is immaterial). -/
def resultAccounts : List ValidationResult → List (String × String)
  | [] => []
  | r :: rest =>
    if r.user = "n/a" then resultAccounts rest
    else (r.user, r.ticker) :: removeKey (r.user, r.ticker) (resultAccounts rest)

/-- The balance-update fold of the commit phase (validate.rs lines 149-189):
apply every matching result's delta — `Incoming` adds, `Outgoing`
subtracts, `amount = none` is skipped. Each applied delta is first decrypted
for logging with `?` (lines 154-163 and 172-181), so a decryption failure
aborts the pass. -/
def applyResults (env : Env) (accountId : Nat) (user ticker : String) :
    EncryptedAmount → List ValidationResult → Except Error EncryptedAmount
  | balance, [] => Except.ok balance
  | balance, r :: rest =>
    if r.user = user ∧ r.ticker = ticker then
      match r.direction, r.amount with
      | Direction.Incoming, some amount =>
        match env.debugDecrypt accountId amount with
        | none => Except.error Error.decryptionError
        | some _ => applyResults env accountId user ticker (balance + amount) rest
      | Direction.Outgoing, some amount =>
        match env.debugDecrypt accountId amount with
        | none => Except.error Error.decryptionError
        | some _ => applyResults env accountId user ticker (balance - amount) rest
      | _, none => applyResults env accountId user ticker balance rest
    else
      applyResults env accountId user ticker balance rest

/-- Commit of one account (validate.rs lines 131-206): load the account
(`?`), decrypt its starting balance for logging (`?`), fold the deltas, and
save the account with the new balance and
`last_processed_tx_counter := last_tx_id`. -/
def commitAccount (env : Env) (store : Store) (results : List ValidationResult)
    (lastTxId : Option Nat) (ut : String × String) : Except Error Store :=
  match alookup store.pubAccounts ut with
  | none => Except.error Error.objectLoadError
  | some orderedPubAccount =>
    match env.debugDecrypt orderedPubAccount.pub_account.id
        orderedPubAccount.pub_account.enc_balance with
    | none => Except.error Error.decryptionError
    | some _ =>
      match applyResults env orderedPubAccount.pub_account.id ut.1 ut.2
          orderedPubAccount.pub_account.enc_balance results with
      | Except.error e => Except.error e
      | Except.ok newBalance =>
        Except.ok { store with
          pubAccounts := asave store.pubAccounts ut
            { pub_account := { orderedPubAccount.pub_account with
                enc_balance := newBalance },
              last_processed_tx_counter := lastTxId } }

/-- Commit of every touched account, in order. -/
def commitList (env : Env) (results : List ValidationResult)
    (lastTxId : Option Nat) : List (String × String) → Store → Except Error Store
  | [], store => Except.ok store
  | ut :: rest, store =>
    match commitAccount env store results lastTxId ut with
    | Except.error e => Except.error e
    | Except.ok store1 => commitList env results lastTxId rest store1

/-- Outcome of a whole `validate_all_pending` pass. -/
inductive PassResult where
  | panicked
  | failed (e : Error)
  | succeeded (store : Store)
deriving DecidableEq

/-- `validate_all_pending` (validate.rs lines 36-216): run the loop over the
pending transactions, then commit every touched account and record
`last_validated_tx_id`. -/
def validateAllPending (env : Env) (store : Store)
    (pending : List CoreTransaction) : PassResult :=
  match runLoop env ⟨store, [], none⟩ pending with
  | LoopOutcome.panicked => PassResult.panicked
  | LoopOutcome.failed e => PassResult.failed e
  | LoopOutcome.next s =>
    match commitList env s.results s.lastTxId (resultAccounts s.results) s.store with
    | Except.error e => PassResult.failed e
    | Except.ok store1 =>
      PassResult.succeeded { store1 with lastValidatedTxId := s.lastTxId }

/- ====== Mediator and cheat paths (justify.rs, account_create.rs, account_transfer.rs) ====== -/

/-- The cheat branch of `process_create_account`, strategy 1
(account_create.rs lines 82-86): increment `pub_account.id` and leave the
signature as it was. -/
def cheatCreateAccountStrategy1 (tx : PubAccountTx) : PubAccountTx :=
  { tx with content.pub_account.id := tx.content.pub_account.id + 1 }

/-- The cheat branch of `process_create_tx`, strategy 1 (account_transfer.rs
lines 150-158): increment the sender's account id in the memo and re-sign
the mutated content with the sender's signing key under the
`mercat/transaction` context. -/
def cheatCreateTxStrategy1 (tx : InitializedTransferTx) (senderSignKey : Nat) :
    InitializedTransferTx :=
  { content := { tx.content with memo.sndr_account_id := tx.content.memo.sndr_account_id + 1 },
    sig := { ctx := "mercat/transaction", key := senderSignKey,
             msg := { tx.content with memo.sndr_account_id := tx.content.memo.sndr_account_id + 1 } } }

/-- The cheat branch of `justify_asset_transaction` (justify.rs lines
306-324): increment the sender's account id deep in the justified
transaction and re-sign the mutated content with the mediator's signing key
under the `mercat/transaction` context. -/
def cheatJustifyTransfer (tx : JustifiedTransferTx) (mediatorSignKey : Nat) :
    JustifiedTransferTx :=
  { content := { tx.content with
      content.init_data.content.memo.sndr_account_id :=
        tx.content.content.init_data.content.memo.sndr_account_id + 1 },
    sig := { ctx := "mercat/transaction", key := mediatorSignKey,
             msg := { tx.content with
               content.init_data.content.memo.sndr_account_id :=
                 tx.content.content.init_data.content.memo.sndr_account_id + 1 } } }

/-- The cheat branch of `justify_asset_issuance` (justify.rs lines 152-173):
overwrite the encrypted asset id of the justified transaction with the given
encryption of the CHEAT asset id and re-sign the mutated content with the
mediator's signing key under the `mercat/asset` context. -/
def cheatJustifyIssuance (jtx : JustifiedAssetTx)
    (mediatorSignKey : Nat) (cheatEncAssetId : EncryptedAmount) :
    JustifiedAssetTx :=
  { content := { jtx.content with content.enc_asset_id := cheatEncAssetId },
    sig := { ctx := "mercat/asset", key := mediatorSignKey,
             msg := { jtx.content with content.enc_asset_id := cheatEncAssetId } } }

/-- `justify_asset_issuance` (justify.rs lines 84-229): load the
`Initialization(Started)` instruction, decode it (a decode failure is an
`ObjectLoadError`), load the mediator's secrets and the issuer's account,
have the library justify the transaction, optionally cheat, and then save:
with `reject` set, the ORIGINAL initialized transaction under
`Justification(Rejected)` keyed by the issuer; otherwise the justified
transaction under `Justification(Started)` keyed by the mediator. -/
def justifyAssetIssuance (env : Env) (store : Store)
    (issuer mediator ticker : String) (txId : Nat) (reject cheat : Bool) :
    Except Error Store :=
  match alookup store.assetInstructions
      (txId, issuer, AssetTxState.Initialization TxSubstate.Started) with
  | none => Except.error Error.objectLoadError
  | some instruction =>
  match decodeInitializedAssetTx instruction.data with
  | none => Except.error Error.objectLoadError
  | some assetTx =>
  match alookup store.mediatorSecrets mediator with
  | none => Except.error Error.objectLoadError
  | some mediatorAccount =>
  match alookup store.pubAccounts (issuer, ticker) with
  | none => Except.error Error.objectLoadError
  | some _issuerAccount =>
  match env.justifyAssetIssuanceTx assetTx _issuerAccount.pub_account mediatorAccount with
  | none => Except.error Error.libraryError
  | some justifiedTx0 =>
  match (if cheat then
          match env.assetIdFromTicker "CHEAT" with
          | none => Except.error Error.libraryError
          | some cheatAssetId =>
            Except.ok (cheatJustifyIssuance justifiedTx0 mediatorAccount.signing_key
              (env.encryptAssetId mediatorAccount.enc_pub_key cheatAssetId))
         else Except.ok justifiedTx0) with
  | Except.error e => Except.error e
  | Except.ok justifiedTx =>
  if reject then
    Except.ok { store with
      assetInstructions := asave store.assetInstructions
        (txId, issuer, AssetTxState.Justification TxSubstate.Rejected)
        { state := AssetTxState.Justification TxSubstate.Rejected,
          data := TxData.initializedAsset assetTx } }
  else
    Except.ok { store with
      assetInstructions := asave store.assetInstructions
        (txId, mediator, AssetTxState.Justification TxSubstate.Started)
        { state := AssetTxState.Justification TxSubstate.Started,
          data := TxData.justifiedAsset justifiedTx } }

/-- `justify_asset_transaction` (justify.rs lines 231-373): load the
`Finalization(Started)` instruction keyed by the sender, decode it, load the
mediator's secrets and both user accounts, resolve the asset id, have the
library justify the transaction, optionally cheat, and then save: with
`reject` set, the ORIGINAL finalized transaction under
`Justification(Rejected)` keyed by the sender; otherwise the justified
transaction under `Justification(Started)` keyed by the mediator. -/
def justifyAssetTransaction (env : Env) (store : Store)
    (sender receiver mediator ticker : String) (txId : Nat)
    (reject cheat : Bool) : Except Error Store :=
  match alookup store.transferInstructions
      (txId, sender, TransferTxState.Finalization TxSubstate.Started) with
  | none => Except.error Error.objectLoadError
  | some instruction =>
  match decodeFinalizedTransferTx instruction.data with
  | none => Except.error Error.objectLoadError
  | some assetTx =>
  match alookup store.mediatorSecrets mediator with
  | none => Except.error Error.objectLoadError
  | some mediatorAccount =>
  match alookup store.pubAccounts (sender, ticker) with
  | none => Except.error Error.objectLoadError
  | some senderAccount =>
  match alookup store.pubAccounts (receiver, ticker) with
  | none => Except.error Error.objectLoadError
  | some receiverAccount =>
  match env.assetIdFromTicker ticker with
  | none => Except.error Error.libraryError
  | some assetId =>
  match env.justifyTransferTx assetTx mediatorAccount
      senderAccount.pub_account.memo.owner_sign_pub_key
      receiverAccount.pub_account.memo.owner_sign_pub_key assetId with
  | none => Except.error Error.libraryError
  | some justifiedTx0 =>
  let justifiedTx := if cheat then
      cheatJustifyTransfer justifiedTx0 mediatorAccount.signing_key
    else justifiedTx0
  if reject then
    Except.ok { store with
      transferInstructions := asave store.transferInstructions
        (txId, sender, TransferTxState.Justification TxSubstate.Rejected)
        { state := TransferTxState.Justification TxSubstate.Rejected,
          data := TxData.finalizedTransfer assetTx } }
  else
    Except.ok { store with
      transferInstructions := asave store.transferInstructions
        (txId, mediator, TransferTxState.Justification TxSubstate.Started)
        { state := TransferTxState.Justification TxSubstate.Started,
          data := TxData.justifiedTransfer justifiedTx } }

/- ================= Helper lemmas ================= -/

theorem alookup_asave_self {α β : Type} [DecidableEq α] (l : List (α × β))
    (k : α) (v : β) : alookup (asave l k v) k = some v := by
  simp [alookup, asave]

theorem alookup_asave_ne {α β : Type} [DecidableEq α] (l : List (α × β))
    (k k' : α) (v : β) (h : k ≠ k') :
    alookup (asave l k v) k' = alookup l k' := by
  simp [alookup, asave, h]

/- ================= Claim C1 ================= -/

/-- Claim C1, counterexample to the claim as stated: with the generators at
exponents `B = 1`, `B_blinding = 3`, the public key at exponent `5`, value
`v = 0`, blinding `r = 1`, first-round randomness `u = 0` and challenge
`c = 1`, the ciphertext prescribed by the spec's stated relation
`ct = (x = r·B_blinding, y = v·B + r·pk)` together with the honestly
generated initial message and response `z = u + c·r` makes the verifier
report `CorrectnessFinalResponseVerificationError { check: 1 }`, not `Ok`.
(In the exponent model every point is a scalar multiple of the base point,
so these data are realized by actual Ristretto points.) -/
theorem correctness_spec_relation_rejected :
    CorrectnessVerifier.verify
      { value := 0, pub_key := 5,
        cipher := specStatedEncrypt 5 { B := 1, B_blinding := 3 } { value := 0, blinding := 1 },
        pc_gens := { B := 1, B_blinding := 3 } }
      1
      (generateInitialMessage 5 { B := 1, B_blinding := 3 } { value := 0, blinding := 1 } 0).2
      (applyChallenge
        (generateInitialMessage 5 { B := 1, B_blinding := 3 } { value := 0, blinding := 1 } 0).1 1) =
    Except.error (AssetProofError.correctnessFinalResponseVerificationError 1) := by
  rfl

/-- Claim C1 (as amended): for every value `v`, blinding `r`, public key,
generators, first-round randomness `u` and challenge `c`, if the ciphertext
satisfies the relation the verifier's two equations actually encode —
`ct = (x = r·pk, y = v·B + r·B_blinding)`, i.e. the spec's §4.4 display with
the roles of `pk` and `B_blinding` in the ciphertext swapped — then the
honestly generated proof (initial message from `generate_initial_message`,
response `z = u + c·r` from `apply_challenge`) makes
`CorrectnessVerifier::verify` return `Ok`. -/
theorem correctness_proof_completeness (v : Nat) (r pk : Scalar)
    (pcGens : PedersenGens) (u c : Scalar) :
    CorrectnessVerifier.verify
      { value := v, pub_key := pk,
        cipher := verifierEncrypt pk pcGens { value := (v : Scalar), blinding := r },
        pc_gens := pcGens }
      c
      (generateInitialMessage pk pcGens { value := (v : Scalar), blinding := r } u).2
      (applyChallenge
        (generateInitialMessage pk pcGens { value := (v : Scalar), blinding := r } u).1 c) =
    Except.ok () := by
  simp only [CorrectnessVerifier.verify, generateInitialMessage, applyChallenge,
    verifierEncrypt]
  rw [if_pos (by ring), if_pos (by ring)]

/- ================= Claim C2 ================= -/

/-- Claim C2: for every challenge, initial message, final response, and
verifier state, `CorrectnessVerifier::verify` returns `Ok` iff both
`z·pk = A + c·x` and `z·B_blinding = B + c·(y − v·B)` hold; it returns
`CorrectnessFinalResponseVerificationError { check: 1 }` iff the first
equation fails, and `CorrectnessFinalResponseVerificationError { check: 2 }`
iff the first holds and the second fails. -/
theorem correctness_verify_characterization (v : CorrectnessVerifier)
    (c : Scalar) (im : CorrectnessInitialMessage) (z : Scalar) :
    (v.verify c im z = Except.ok () ↔
      (z * v.pub_key = im.a + c * v.cipher.x ∧
       z * v.pc_gens.B_blinding =
         im.b + c * (v.cipher.y - (v.value : Scalar) * v.pc_gens.B))) ∧
    (v.verify c im z =
        Except.error (AssetProofError.correctnessFinalResponseVerificationError 1) ↔
      ¬ z * v.pub_key = im.a + c * v.cipher.x) ∧
    (v.verify c im z =
        Except.error (AssetProofError.correctnessFinalResponseVerificationError 2) ↔
      (z * v.pub_key = im.a + c * v.cipher.x ∧
       ¬ z * v.pc_gens.B_blinding =
         im.b + c * (v.cipher.y - (v.value : Scalar) * v.pc_gens.B))) := by
  unfold CorrectnessVerifier.verify
  split
  · split
    · simp_all
    · simp_all
  · simp_all

/- ================= Claim C8 ================= -/

/-- Claim C8: the cheat paths treat account-id mutation asymmetrically with
respect to re-signing. `process_create_account` strategy 1 increments
`pub_account.id` by one and leaves the existing signature unchanged, while
`process_create_tx` strategy 1 and the `justify_asset_transaction` cheat
increment the sender's account id by one and recompute the signature over
the mutated content with the role's signing key (the sender's resp. the
mediator's, both under the `mercat/transaction` signing context). -/
theorem cheat_resigning_asymmetry :
    (∀ tx : PubAccountTx,
      (cheatCreateAccountStrategy1 tx).content.pub_account.id =
        tx.content.pub_account.id + 1 ∧
      (cheatCreateAccountStrategy1 tx).sig = tx.sig) ∧
    (∀ (tx : InitializedTransferTx) (senderKey : Nat),
      (cheatCreateTxStrategy1 tx senderKey).content.memo.sndr_account_id =
        tx.content.memo.sndr_account_id + 1 ∧
      (cheatCreateTxStrategy1 tx senderKey).sig =
        { ctx := "mercat/transaction", key := senderKey,
          msg := (cheatCreateTxStrategy1 tx senderKey).content }) ∧
    (∀ (tx : JustifiedTransferTx) (mediatorKey : Nat),
      (cheatJustifyTransfer tx mediatorKey).content.content.init_data.content.memo.sndr_account_id =
        tx.content.content.init_data.content.memo.sndr_account_id + 1 ∧
      (cheatJustifyTransfer tx mediatorKey).sig =
        { ctx := "mercat/transaction", key := mediatorKey,
          msg := (cheatJustifyTransfer tx mediatorKey).content }) := by
  refine ⟨fun tx => ⟨rfl, rfl⟩, fun tx k => ⟨rfl, rfl⟩, fun tx k => ⟨rfl, rfl⟩⟩

/- ================= Claim C7 ================= -/

/-- Claim C7: with the `reject` flag set, the mediator driver saves the
transaction artifact under the `Rejected` substate —
`AssetTxState::Justification(Rejected)` for an issuance,
`TxState::Justification(Rejected)` for a transfer — carrying the ORIGINAL
(not mediator-signed) transaction, and the `Justification(Started)` artifact
of the justified transaction is not written under any name. -/
theorem justify_reject_saves_rejected :
    (∀ (env : Env) (store : Store) (issuer mediator ticker : String)
       (txId : Nat) (cheat : Bool) (instr : AssetInstruction)
       (assetTx : InitializedAssetTx) (msec : MediatorAccount)
       (iacc : OrderedPubAccount) (jtx : JustifiedAssetTx),
      alookup store.assetInstructions
          (txId, issuer, AssetTxState.Initialization TxSubstate.Started) = some instr →
      decodeInitializedAssetTx instr.data = some assetTx →
      alookup store.mediatorSecrets mediator = some msec →
      alookup store.pubAccounts (issuer, ticker) = some iacc →
      env.justifyAssetIssuanceTx assetTx iacc.pub_account msec = some jtx →
      (cheat = true → (env.assetIdFromTicker "CHEAT").isSome = true) →
      justifyAssetIssuance env store issuer mediator ticker txId true cheat =
        Except.ok { store with
          assetInstructions := asave store.assetInstructions
            (txId, issuer, AssetTxState.Justification TxSubstate.Rejected)
            { state := AssetTxState.Justification TxSubstate.Rejected,
              data := TxData.initializedAsset assetTx } } ∧
      (∀ name, alookup
          (asave store.assetInstructions
            (txId, issuer, AssetTxState.Justification TxSubstate.Rejected)
            { state := AssetTxState.Justification TxSubstate.Rejected,
              data := TxData.initializedAsset assetTx })
          (txId, name, AssetTxState.Justification TxSubstate.Started) =
        alookup store.assetInstructions
          (txId, name, AssetTxState.Justification TxSubstate.Started))) ∧
    (∀ (env : Env) (store : Store) (sender receiver mediator ticker : String)
       (txId : Nat) (cheat : Bool) (instr : TransferInstruction)
       (finalTx : FinalizedTransferTx) (msec : MediatorAccount)
       (sacc racc : OrderedPubAccount) (assetId : Scalar)
       (jtx : JustifiedTransferTx),
      alookup store.transferInstructions
          (txId, sender, TransferTxState.Finalization TxSubstate.Started) = some instr →
      decodeFinalizedTransferTx instr.data = some finalTx →
      alookup store.mediatorSecrets mediator = some msec →
      alookup store.pubAccounts (sender, ticker) = some sacc →
      alookup store.pubAccounts (receiver, ticker) = some racc →
      env.assetIdFromTicker ticker = some assetId →
      env.justifyTransferTx finalTx msec sacc.pub_account.memo.owner_sign_pub_key
          racc.pub_account.memo.owner_sign_pub_key assetId = some jtx →
      justifyAssetTransaction env store sender receiver mediator ticker txId true cheat =
        Except.ok { store with
          transferInstructions := asave store.transferInstructions
            (txId, sender, TransferTxState.Justification TxSubstate.Rejected)
            { state := TransferTxState.Justification TxSubstate.Rejected,
              data := TxData.finalizedTransfer finalTx } } ∧
      (∀ name, alookup
          (asave store.transferInstructions
            (txId, sender, TransferTxState.Justification TxSubstate.Rejected)
            { state := TransferTxState.Justification TxSubstate.Rejected,
              data := TxData.finalizedTransfer finalTx })
          (txId, name, TransferTxState.Justification TxSubstate.Started) =
        alookup store.transferInstructions
          (txId, name, TransferTxState.Justification TxSubstate.Started))) := by
  constructor
  · intro env store issuer mediator ticker txId cheat instr assetTx msec iacc jtx
      h1 h2 h3 h4 h5 hch
    constructor
    · cases cheat with
      | false => simp only [justifyAssetIssuance, h1, h2, h3, h4, h5, if_neg, if_pos,
          Bool.false_eq_true, if_false]
      | true =>
        obtain ⟨aid, haid⟩ := Option.isSome_iff_exists.mp (hch rfl)
        simp only [justifyAssetIssuance, h1, h2, h3, h4, h5, haid, if_true]
    · intro name
      exact alookup_asave_ne _ _ _ _ (by simp)
  · intro env store sender receiver mediator ticker txId cheat instr finalTx msec
      sacc racc assetId jtx h1 h2 h3 h4 h5 h6 h7
    constructor
    · simp only [justifyAssetTransaction, h1, h2, h3, h4, h5, h6, h7, if_true]
    · intro name
      exact alookup_asave_ne _ _ _ _ (by simp)

/- ================= Claim C6 ================= -/

/-- Claim C6: for every account-creation transaction, if verification
succeeds `validate_account` publishes an `OrderedPubAccount` consisting of
the transaction's `pub_account` with
`last_processed_tx_counter = Some(tx_id)` of that account-creation
transaction; on verification failure it returns an error and (as the
validation loop shows) the store is left unchanged, so nothing is
published. -/
theorem account_validation_publishes :
    (∀ (env : Env) (store : Store) (accountId txId : Nat)
       (user ticker : String) (otx : OrderedPubAccountTx),
      alookup store.accountMap accountId = some (user, ticker, txId) →
      alookup store.accountTxs (txId, user, ticker) = some otx →
      env.verifyAccount otx.account_tx store.validAssetIds = true →
      validateAccount env store accountId =
        Except.ok { store with
          pubAccounts := asave store.pubAccounts (user, ticker)
            { pub_account := otx.account_tx.content.pub_account,
              last_processed_tx_counter := some txId } }) ∧
    (∀ (env : Env) (store : Store) (accountId txId : Nat)
       (user ticker : String) (otx : OrderedPubAccountTx),
      alookup store.accountMap accountId = some (user, ticker, txId) →
      alookup store.accountTxs (txId, user, ticker) = some otx →
      env.verifyAccount otx.account_tx store.validAssetIds = false →
      validateAccount env store accountId = Except.error Error.libraryError) ∧
    (∀ (env : Env) (s : LoopState) (accountTx : PubAccountTx) (txId : Nat)
       (e : Error),
      validateAccount env s.store accountTx.content.pub_account.id =
        Except.error e →
      validateStep env s (CoreTransaction.account accountTx txId) =
        LoopOutcome.next ⟨s.store, s.results,
          some (Nat.max (s.lastTxId.getD 0) txId)⟩) := by
  refine ⟨?_, ?_, ?_⟩
  · intro env store accountId txId user ticker otx h1 h2 h3
    simp only [validateAccount, h1, h2, h3, if_true]
  · intro env store accountId txId user ticker otx h1 h2 h3
    simp only [validateAccount, h1, h2, h3, Bool.false_eq_true, if_false]
  · intro env s accountTx txId e h
    simp only [validateStep, h]

/- ======= Concrete sample data for witnesses and counterexamples ======= -/

/-- A concrete ciphertext. -/
def sampleCipher : CipherText := ⟨0, 0⟩

/-- A concrete account memo. -/
def sampleAccountMemo : AccountMemo := ⟨0, 1, 0⟩

/-- A concrete public account with a given id. -/
def samplePubAccount (id : Nat) : PubAccount :=
  ⟨id, sampleCipher, sampleCipher, sampleAccountMemo⟩

/-- A concrete mediator secret account. -/
def sampleMediatorAccount : MediatorAccount := ⟨4, 2, 9⟩

/-- A concrete mediator public memo. -/
def sampleMediatorMemo : AccountMemo := ⟨4, 9, 0⟩

/-- A concrete initialized asset transaction for issuer account id 3. -/
def sampleAssetTx : InitializedAssetTx :=
  ⟨⟨3, sampleCipher, ⟨sampleCipher⟩⟩,
   ⟨"mercat/asset", 1, ⟨3, sampleCipher, ⟨sampleCipher⟩⟩⟩⟩

/-- A concrete transfer memo: sender account 1, receiver account 2. -/
def sampleTransferMemo : TransferMemo := ⟨1, 2, ⟨2, 3⟩, ⟨4, 5⟩⟩

/-- A concrete initialized transfer transaction. -/
def sampleInitTx : InitializedTransferTx :=
  ⟨⟨sampleTransferMemo⟩, ⟨"mercat/transaction", 1, ⟨sampleTransferMemo⟩⟩⟩

/-- A concrete finalized transfer transaction. -/
def sampleFinalTx : FinalizedTransferTx :=
  ⟨⟨sampleInitTx⟩, ⟨"mercat/transaction", 2, ⟨sampleInitTx⟩⟩⟩

/-- A concrete justified transfer transaction. -/
def sampleJustTx : JustifiedTransferTx :=
  ⟨sampleFinalTx, ⟨"mercat/transaction", 9, sampleFinalTx⟩⟩

/-- A concrete account-creation transaction for account id 7. -/
def sampleAccountTx : PubAccountTx :=
  ⟨⟨samplePubAccount 7⟩, ⟨"mercat/account", 1, samplePubAccount 7⟩⟩

/-- An environment whose library calls all succeed: every verifier accepts,
the mediator helpers sign with the mediator's key, and the lib.rs helpers
are total. -/
def trivEnv : Env :=
  { verifyTransferTx := fun _ _ _ _ _ => true
    verifyAssetTx := fun _ _ _ _ => true
    verifyAccount := fun _ _ => true
    justifyAssetIssuanceTx := fun atx _ m =>
      some ⟨atx, ⟨"mercat/asset", m.signing_key, atx⟩⟩
    justifyTransferTx := fun ftx m _ _ _ =>
      some ⟨ftx, ⟨"mercat/transaction", m.signing_key, ftx⟩⟩
    lastOrderingState := fun _ c t => some ⟨c, 0, t⟩
    computePendingBalance := fun _ _ _ b => some b
    debugDecrypt := fun _ _ => some 0
    assetIdFromTicker := fun _ => some 7
    encryptAssetId := fun _ _ => sampleCipher }

/-- A store holding an on-chain account for ("a", "T") at counter `Some 10`
whose account-creation transaction (tx id 5) is still among the artifacts. -/
def storeAcct : Store :=
  { accountMap := [(7, ("a", "T", 5))]
    pubAccounts := [(("a", "T"), ⟨samplePubAccount 7, some 10⟩)]
    mediatorAccounts := []
    mediatorSecrets := []
    transferInstructions := []
    assetInstructions := []
    accountTxs := [((5, "a", "T"), ⟨sampleAccountTx⟩)]
    validAssetIds := []
    lastValidatedTxId := none }

/-- A store holding the artifacts both `justify` drivers need: an
`Initialization(Started)` issuance instruction and a
`Finalization(Started)` transfer instruction for tx id 5, the mediator's
secrets under "m", and accounts for ("i", "T") and ("r", "T"). -/
def storeJustify : Store :=
  { accountMap := []
    pubAccounts := [(("i", "T"), ⟨samplePubAccount 3, some 0⟩),
                    (("r", "T"), ⟨samplePubAccount 4, some 0⟩)]
    mediatorAccounts := []
    mediatorSecrets := [("m", sampleMediatorAccount)]
    transferInstructions :=
      [((5, "i", TransferTxState.Finalization TxSubstate.Started),
        ⟨TransferTxState.Finalization TxSubstate.Started,
         TxData.finalizedTransfer sampleFinalTx⟩)]
    assetInstructions :=
      [((5, "i", AssetTxState.Initialization TxSubstate.Started),
        ⟨AssetTxState.Initialization TxSubstate.Started,
         TxData.initializedAsset sampleAssetTx⟩)]
    accountTxs := []
    validAssetIds := []
    lastValidatedTxId := none }

/-- Witness for claim C7 at the concrete store above, both for an issuance
and for a transfer justification with `reject` set. -/
theorem justify_reject_saves_rejected_witness :
    justifyAssetIssuance trivEnv storeJustify "i" "m" "T" 5 true false =
      Except.ok { storeJustify with
        assetInstructions := asave storeJustify.assetInstructions
          (5, "i", AssetTxState.Justification TxSubstate.Rejected)
          { state := AssetTxState.Justification TxSubstate.Rejected,
            data := TxData.initializedAsset sampleAssetTx } } ∧
    justifyAssetTransaction trivEnv storeJustify "i" "r" "m" "T" 5 true false =
      Except.ok { storeJustify with
        transferInstructions := asave storeJustify.transferInstructions
          (5, "i", TransferTxState.Justification TxSubstate.Rejected)
          { state := TransferTxState.Justification TxSubstate.Rejected,
            data := TxData.finalizedTransfer sampleFinalTx } } := by
  constructor
  · exact (justify_reject_saves_rejected.1 trivEnv storeJustify "i" "m" "T" 5 false
      _ sampleAssetTx sampleMediatorAccount ⟨samplePubAccount 3, some 0⟩ _
      rfl rfl rfl rfl rfl (fun h => Bool.noConfusion h)).1
  · exact (justify_reject_saves_rejected.2 trivEnv storeJustify "i" "r" "m" "T" 5 false
      _ sampleFinalTx sampleMediatorAccount ⟨samplePubAccount 3, some 0⟩
      ⟨samplePubAccount 4, some 0⟩ 7 _
      rfl rfl rfl rfl rfl rfl rfl).1

/-- An environment identical to `trivEnv` except that account verification
rejects. -/
def rejectingAccountEnv : Env :=
  { trivEnv with verifyAccount := fun _ _ => false }

/-- Witness for claim C6 at the concrete store above: a succeeding and a
failing account validation. -/
theorem account_validation_publishes_witness :
    validateAccount trivEnv storeAcct 7 =
      Except.ok { storeAcct with
        pubAccounts := asave storeAcct.pubAccounts ("a", "T")
          { pub_account := samplePubAccount 7,
            last_processed_tx_counter := some 5 } } ∧
    validateAccount rejectingAccountEnv storeAcct 7 =
      Except.error Error.libraryError := by
  constructor
  · exact account_validation_publishes.1 trivEnv storeAcct 7 5 "a" "T"
      ⟨sampleAccountTx⟩ rfl rfl rfl
  · exact account_validation_publishes.2.1 rejectingAccountEnv storeAcct 7 5 "a" "T"
      ⟨sampleAccountTx⟩ rfl rfl rfl

/- ================= Claim C5 (counterexample) ================= -/

/-- Claim C5, counterexample: the stored `OrderedPubAccount` for ("a", "T")
carries `last_processed_tx_counter = Some 10`, yet re-validating the
account-creation transaction (tx id 5) succeeds and overwrites the stored
account with `last_processed_tx_counter = Some 5 < Some 10` — the counter
written to the on-chain store is NOT greater than or equal to the
previously stored one. -/
theorem account_counter_decreases_ctrex :
    (validateAccount trivEnv storeAcct 7).toOption.map
        (fun s => alookup s.pubAccounts ("a", "T")) =
      some (some ⟨samplePubAccount 7, some 5⟩) ∧
    alookup storeAcct.pubAccounts ("a", "T") =
      some ⟨samplePubAccount 7, some 10⟩ ∧
    5 < 10 := by
  refine ⟨rfl, rfl, by decide⟩

/- ================= Loop and commit lemmas ================= -/

/-- How one loop iteration advances `last_tx_id`. -/
def stepTxId (acc : Option Nat) (t : CoreTransaction) : Option Nat :=
  some (Nat.max (acc.getD 0) t.txId)

/-- The maximum tx id of a list of transactions. -/
def maxTxId (txs : List CoreTransaction) : Nat :=
  txs.foldl (fun acc t => Nat.max acc t.txId) 0

theorem validateStep_next_lastTxId (env : Env) (s : LoopState)
    (tx : CoreTransaction) (s1 : LoopState)
    (h : validateStep env s tx = LoopOutcome.next s1) :
    s1.lastTxId = some (Nat.max (s.lastTxId.getD 0) tx.txId) := by
  cases tx with
  | issueJustify itx txId med =>
    simp only [validateStep] at h
    cases h
    rfl
  | transferJustify ttx txId med =>
    simp only [validateStep] at h
    repeat' split at h
    all_goals first
      | (cases h; rfl)
      | cases h
  | account atx txId =>
    simp only [validateStep] at h
    split at h
    · cases h; rfl
    · cases h; rfl
  | notReady =>
    simp only [validateStep] at h
    cases h

theorem runLoop_lastTxId (env : Env) :
    ∀ (txs : List CoreTransaction) (s s1 : LoopState),
      runLoop env s txs = LoopOutcome.next s1 →
      s1.lastTxId = txs.foldl stepTxId s.lastTxId := by
  intro txs
  induction txs with
  | nil =>
    intro s s1 h
    simp only [runLoop] at h
    cases h
    rfl
  | cons t rest ih =>
    intro s s1 h
    simp only [runLoop] at h
    split at h
    · cases h
    · cases h
    · rename_i s2 hstep
      rw [ih s2 s1 h, List.foldl_cons]
      congr 1
      rw [validateStep_next_lastTxId env s t s2 hstep]
      rfl

theorem foldl_stepTxId_some (txs : List CoreTransaction) :
    ∀ a : Nat, txs.foldl stepTxId (some a) =
      some (txs.foldl (fun acc t => Nat.max acc t.txId) a) := by
  induction txs with
  | nil => intro a; rfl
  | cons t rest ih =>
    intro a
    simp only [List.foldl_cons]
    rw [show stepTxId (some a) t = some (Nat.max a t.txId) from rfl]
    exact ih _

theorem foldl_stepTxId_nonempty (t : CoreTransaction)
    (rest : List CoreTransaction) :
    ((t :: rest).foldl stepTxId none) = some (maxTxId (t :: rest)) := by
  simp only [List.foldl_cons, maxTxId]
  rw [show stepTxId none t = some (Nat.max 0 t.txId) from rfl]
  exact foldl_stepTxId_some rest _

theorem le_foldl_max (txs : List CoreTransaction) :
    ∀ a : Nat, a ≤ txs.foldl (fun acc t => Nat.max acc t.txId) a := by
  induction txs with
  | nil => intro a; exact Nat.le_refl a
  | cons t rest ih =>
    intro a
    exact Nat.le_trans (Nat.le_max_left a t.txId) (ih (Nat.max a t.txId))

theorem mem_le_foldl_max (t : CoreTransaction) (txs : List CoreTransaction)
    (h : t ∈ txs) :
    ∀ a : Nat, t.txId ≤ txs.foldl (fun acc u => Nat.max acc u.txId) a := by
  induction txs with
  | nil => cases h
  | cons t1 rest ih =>
    intro a
    rw [List.foldl_cons]
    rcases List.mem_cons.mp h with h1 | h1
    · subst h1
      exact Nat.le_trans (Nat.le_max_right a t.txId) (le_foldl_max rest _)
    · exact ih h1 _

theorem mem_removeKey (k : String × String) (l : List (String × String))
    (x : String × String) : x ∈ removeKey k l ↔ x ∈ l ∧ x ≠ k := by
  induction l with
  | nil => simp [removeKey]
  | cons a rest ih =>
    simp only [removeKey]
    split
    · rename_i ha
      subst ha
      rw [ih]
      simp only [List.mem_cons]
      constructor
      · rintro ⟨h1, h2⟩
        exact ⟨Or.inr h1, h2⟩
      · rintro ⟨h1 | h1, h2⟩
        · exact absurd h1 h2
        · exact ⟨h1, h2⟩
    · rename_i ha
      simp only [List.mem_cons, ih]
      constructor
      · rintro (h1 | ⟨h1, h2⟩)
        · subst h1; exact ⟨Or.inl rfl, ha⟩
        · exact ⟨Or.inr h1, h2⟩
      · rintro ⟨h1 | h1, h2⟩
        · subst h1; exact Or.inl rfl
        · exact Or.inr ⟨h1, h2⟩

theorem pairwise_removeKey (k : String × String) (l : List (String × String))
    (h : l.Pairwise (· ≠ ·)) : (removeKey k l).Pairwise (· ≠ ·) := by
  induction l with
  | nil => exact List.Pairwise.nil
  | cons a rest ih =>
    rcases List.pairwise_cons.mp h with ⟨h1, h2⟩
    simp only [removeKey]
    split
    · exact ih h2
    · refine List.pairwise_cons.mpr ⟨?_, ih h2⟩
      intro x hx
      exact h1 x ((mem_removeKey k rest x).mp hx).1

theorem resultAccounts_pairwise (results : List ValidationResult) :
    (resultAccounts results).Pairwise (· ≠ ·) := by
  induction results with
  | nil => exact List.Pairwise.nil
  | cons r rest ih =>
    simp only [resultAccounts]
    split
    · exact ih
    · refine List.pairwise_cons.mpr ⟨?_, pairwise_removeKey _ _ ih⟩
      intro x hx
      exact (((mem_removeKey _ _ x).mp hx).2).symm

theorem mem_resultAccounts (results : List ValidationResult)
    (r : ValidationResult) (hr : r ∈ results) (hu : r.user ≠ "n/a") :
    (r.user, r.ticker) ∈ resultAccounts results := by
  induction results with
  | nil => cases hr
  | cons r1 rest ih =>
    rcases List.mem_cons.mp hr with h1 | h1
    · subst h1
      simp only [resultAccounts]
      rw [if_neg hu]
      exact List.mem_cons_self _ _
    · simp only [resultAccounts]
      split
      · exact ih h1
      · by_cases hx : (r.user, r.ticker) = (r1.user, r1.ticker)
        · rw [hx]; exact List.mem_cons_self _ _
        · exact List.mem_cons_of_mem _
            ((mem_removeKey _ _ _).mpr ⟨ih h1, hx⟩)

theorem commitAccount_ok (env : Env) (store : Store)
    (results : List ValidationResult) (lastTxId : Option Nat)
    (ut : String × String) (store1 : Store)
    (h : commitAccount env store results lastTxId ut = Except.ok store1) :
    ∃ opa nb, alookup store.pubAccounts ut = some opa ∧
      store1 = { store with
        pubAccounts :=
          asave store.pubAccounts ut
            { pub_account := { opa.pub_account with enc_balance := nb },
              last_processed_tx_counter := lastTxId } } := by
  unfold commitAccount at h
  split at h
  · cases h
  · rename_i opa hopa
    split at h
    · cases h
    · split at h
      · cases h
      · rename_i nb hnb
        cases h
        exact ⟨opa, nb, hopa, rfl⟩

theorem commitList_preserves_lookup (env : Env)
    (results : List ValidationResult) (lastTxId : Option Nat) :
    ∀ (keys : List (String × String)) (store store1 : Store),
      commitList env results lastTxId keys store = Except.ok store1 →
      ∀ ut, ut ∉ keys →
      alookup store1.pubAccounts ut = alookup store.pubAccounts ut := by
  intro keys
  induction keys with
  | nil =>
    intro store store1 h ut _
    simp only [commitList] at h
    cases h
    rfl
  | cons k rest ih =>
    intro store store1 h ut hut
    simp only [commitList] at h
    split at h
    · cases h
    · rename_i store2 hca
      simp only [List.mem_cons, not_or] at hut
      rcases hut with ⟨hmem1, hmem2⟩
      rw [ih store2 store1 h ut hmem2]
      obtain ⟨opa, nb, hopa, hstore2⟩ := commitAccount_ok env store results lastTxId k store2 hca
      rw [hstore2]
      exact alookup_asave_ne _ _ _ _ (fun he => hmem1 (he ▸ rfl))

theorem commitList_counter (env : Env) (results : List ValidationResult)
    (lastTxId : Option Nat) :
    ∀ (keys : List (String × String)) (store store1 : Store),
      commitList env results lastTxId keys store = Except.ok store1 →
      keys.Pairwise (· ≠ ·) →
      ∀ ut ∈ keys, ∃ acc, alookup store1.pubAccounts ut = some acc ∧
        acc.last_processed_tx_counter = lastTxId := by
  intro keys
  induction keys with
  | nil =>
    intro store store1 _ _ ut hut
    cases hut
  | cons k rest ih =>
    intro store store1 h hpw ut hut
    simp only [commitList] at h
    split at h
    · cases h
    · rename_i store2 hca
      rcases List.pairwise_cons.mp hpw with ⟨h1, h2⟩
      rcases List.mem_cons.mp hut with h3 | h3
      · subst h3
        obtain ⟨opa, nb, hopa, hstore2⟩ :=
          commitAccount_ok env store results lastTxId ut store2 hca
        have hl2 : alookup store2.pubAccounts ut =
            some ⟨{ opa.pub_account with enc_balance := nb }, lastTxId⟩ := by
          rw [hstore2]
          exact alookup_asave_self _ _ _
        have hnotin : ut ∉ rest := fun hmem => (h1 ut hmem) rfl
        refine ⟨⟨{ opa.pub_account with enc_balance := nb }, lastTxId⟩, ?_, rfl⟩
        rw [commitList_preserves_lookup env results lastTxId rest store2 store1 h ut hnotin]
        exact hl2
      · exact ih store2 store1 h h2 ut h3

/- ================= Claim C9 ================= -/

/-- Shared helper: after a successful pass, every account named by a result
is saved with counter `Some(maxTxId pending)`. -/
theorem pass_counter_stamp (env : Env) (store : Store)
    (pending : List CoreTransaction) (s : LoopState) (sF : Store)
    (r : ValidationResult)
    (hloop : runLoop env ⟨store, [], none⟩ pending = LoopOutcome.next s)
    (hpass : validateAllPending env store pending = PassResult.succeeded sF)
    (hr : r ∈ s.results) (hu : r.user ≠ "n/a") :
    ∃ acc, alookup sF.pubAccounts (r.user, r.ticker) = some acc ∧
      acc.last_processed_tx_counter = some (maxTxId pending) := by
  unfold validateAllPending at hpass
  rw [hloop] at hpass
  dsimp only at hpass
  rcases hcl : commitList env s.results s.lastTxId (resultAccounts s.results)
      s.store with e | store2
  · rw [hcl] at hpass
    cases hpass
  · rw [hcl] at hpass
    cases hpass
    obtain ⟨acc, hacc, hcnt⟩ := commitList_counter env s.results s.lastTxId
      (resultAccounts s.results) s.store store2 hcl
      (resultAccounts_pairwise s.results) (r.user, r.ticker)
      (mem_resultAccounts s.results r hr hu)
    refine ⟨acc, hacc, ?_⟩
    rw [hcnt]
    cases pending with
    | nil =>
      simp only [runLoop] at hloop
      cases hloop
      cases hr
    | cons t rest =>
      rw [runLoop_lastTxId env (t :: rest) _ s hloop]
      exact foldl_stepTxId_nonempty t rest

/-- Claim C9: after a successful `validate_all_pending` pass, every account
that appears in any `ValidationResult` of the pass — including accounts
whose own transaction failed validation (their error results still name the
user and ticker) — is saved with the same `last_processed_tx_counter`,
namely `Some(m)` where `m` is the maximum tx id over all transactions
processed in the pass, not the account's own transaction id. -/
theorem pass_stamps_uniform_counter (env : Env) (store : Store)
    (pending : List CoreTransaction) (s : LoopState) (sF : Store)
    (r : ValidationResult)
    (hloop : runLoop env ⟨store, [], none⟩ pending = LoopOutcome.next s)
    (hpass : validateAllPending env store pending = PassResult.succeeded sF)
    (hr : r ∈ s.results) (hu : r.user ≠ "n/a") :
    ∃ acc, alookup sF.pubAccounts (r.user, r.ticker) = some acc ∧
      acc.last_processed_tx_counter = some (maxTxId pending) :=
  pass_counter_stamp env store pending s sF r hloop hpass hr hu

/-- A concrete justified asset-issuance transaction. -/
def sampleJustAssetTx : JustifiedAssetTx :=
  ⟨sampleAssetTx, ⟨"mercat/asset", 9, sampleAssetTx⟩⟩

/-- A store ready for one issuance validation: issuer account id 3 belongs
to ("i", "T"), created at tx id 1. -/
def storeIssue : Store :=
  { accountMap := [(3, ("i", "T", 1))]
    pubAccounts := [(("i", "T"), ⟨samplePubAccount 3, some 0⟩)]
    mediatorAccounts := [("m", sampleMediatorMemo)]
    mediatorSecrets := []
    transferInstructions := []
    assetInstructions := []
    accountTxs := []
    validAssetIds := []
    lastValidatedTxId := none }

/-- The pending list of one issuance at tx id 4. -/
def pendingIssue : List CoreTransaction :=
  [CoreTransaction.issueJustify sampleJustAssetTx 4 "m"]

/-- Witness for claim C9 at the concrete issuance pass above. -/
theorem pass_stamps_uniform_counter_witness :
    ∃ s sF acc,
      runLoop trivEnv ⟨storeIssue, [], none⟩ pendingIssue = LoopOutcome.next s ∧
      validateAllPending trivEnv storeIssue pendingIssue = PassResult.succeeded sF ∧
      (⟨"i", "T", some sampleCipher, Direction.Incoming⟩ : ValidationResult) ∈ s.results ∧
      alookup sF.pubAccounts ("i", "T") = some acc ∧
      acc.last_processed_tx_counter = some (maxTxId pendingIssue) := by
  obtain ⟨acc, h1, h2⟩ := pass_stamps_uniform_counter trivEnv storeIssue
    pendingIssue _ _ ⟨"i", "T", some sampleCipher, Direction.Incoming⟩
    rfl rfl (by decide) (by decide)
  exact ⟨_, _, acc, rfl, rfl, by decide, h1, h2⟩

/- ================= Claim C5 (amended) ================= -/

/-- Claim C5 (as amended): the writes of `OrderedPubAccount` are monotone in
`last_processed_tx_counter` only under a scheduling assumption. The
per-account save of `validate_all_pending` stamps `Some(max tx id of the
pass)`, which is ≥ the previously stored counter `Some c` whenever some
transaction of the pass has tx id ≥ c (in particular whenever every pending
transaction is newer than everything already processed); `validate_account`
always writes `Some(tx_id)` of the account-creation transaction, which is
≥ the stored counter `Some c` only when `c ≤ tx_id`. Without these
assumptions the counter can decrease (see the counterexample). -/
theorem counter_monotone_under_scheduling :
    (∀ (env : Env) (store : Store) (pending : List CoreTransaction)
       (s : LoopState) (sF : Store) (r : ValidationResult)
       (opa : OrderedPubAccount) (c : Nat),
      runLoop env ⟨store, [], none⟩ pending = LoopOutcome.next s →
      validateAllPending env store pending = PassResult.succeeded sF →
      r ∈ s.results → r.user ≠ "n/a" →
      alookup store.pubAccounts (r.user, r.ticker) = some opa →
      opa.last_processed_tx_counter = some c →
      (∃ t ∈ pending, c ≤ t.txId) →
      ∃ acc, alookup sF.pubAccounts (r.user, r.ticker) = some acc ∧
        acc.last_processed_tx_counter = some (maxTxId pending) ∧
        c ≤ maxTxId pending) ∧
    (∀ (env : Env) (store : Store) (accountId txId : Nat)
       (user ticker : String) (otx : OrderedPubAccountTx)
       (opa : OrderedPubAccount) (c : Nat),
      alookup store.accountMap accountId = some (user, ticker, txId) →
      alookup store.accountTxs (txId, user, ticker) = some otx →
      env.verifyAccount otx.account_tx store.validAssetIds = true →
      alookup store.pubAccounts (user, ticker) = some opa →
      opa.last_processed_tx_counter = some c →
      c ≤ txId →
      ∃ store1, validateAccount env store accountId = Except.ok store1 ∧
        alookup store1.pubAccounts (user, ticker) =
          some ⟨otx.account_tx.content.pub_account, some txId⟩ ∧
        c ≤ txId) := by
  constructor
  · intro env store pending s sF r opa c hloop hpass hr hu hopa hc hex
    obtain ⟨acc, h1, h2⟩ :=
      pass_counter_stamp env store pending s sF r hloop hpass hr hu
    rcases hex with ⟨t, ht, hct⟩
    refine ⟨acc, h1, h2, ?_⟩
    exact Nat.le_trans hct (mem_le_foldl_max t pending ht 0)
  · intro env store accountId txId user ticker otx opa c h1 h2 h3 hopa hc hle
    refine
      ⟨{ store with
          pubAccounts :=
            asave store.pubAccounts (user, ticker)
              { pub_account := otx.account_tx.content.pub_account,
                last_processed_tx_counter := some txId } },
       ?_, ?_, hle⟩
    · simp only [validateAccount, h1, h2, h3, if_true]
    · exact alookup_asave_self _ _ _

/-- A variant of `storeAcct` whose stored counter `Some 3` is at most the
creation tx id 5. -/
def storeAcctLow : Store :=
  { storeAcct with
    pubAccounts := [(("a", "T"), ⟨samplePubAccount 7, some 3⟩)] }

/-- Witness for claim C5 (as amended), for both conjuncts: the issuance pass
on `storeIssue` (stored counter `Some 0`, pass maximum 4) and an account
re-validation on `storeAcctLow` (stored counter `Some 3`, creation tx id 5). -/
theorem counter_monotone_under_scheduling_witness :
    (∃ s sF acc,
      runLoop trivEnv ⟨storeIssue, [], none⟩ pendingIssue = LoopOutcome.next s ∧
      validateAllPending trivEnv storeIssue pendingIssue = PassResult.succeeded sF ∧
      alookup sF.pubAccounts ("i", "T") = some acc ∧
      acc.last_processed_tx_counter = some (maxTxId pendingIssue) ∧
      0 ≤ maxTxId pendingIssue) ∧
    (∃ store1, validateAccount trivEnv storeAcctLow 7 = Except.ok store1 ∧
      alookup store1.pubAccounts ("a", "T") =
        some ⟨samplePubAccount 7, some 5⟩ ∧
      3 ≤ 5) := by
  constructor
  · obtain ⟨acc, h1, h2, h3⟩ := counter_monotone_under_scheduling.1 trivEnv
      storeIssue pendingIssue _ _
      ⟨"i", "T", some sampleCipher, Direction.Incoming⟩
      ⟨samplePubAccount 3, some 0⟩ 0 rfl rfl (by decide) (by decide) rfl rfl
      ⟨CoreTransaction.issueJustify sampleJustAssetTx 4 "m", by decide, by decide⟩
    exact ⟨_, _, acc, rfl, rfl, h1, h2, Nat.zero_le _⟩
  · obtain ⟨store1, h1, h2, h3⟩ := counter_monotone_under_scheduling.2 trivEnv
      storeAcctLow 7 5 "a" "T" ⟨sampleAccountTx⟩ ⟨samplePubAccount 7, some 3⟩ 3
      rfl rfl rfl rfl rfl (by decide)
    exact ⟨store1, h1, h2, h3⟩

/- ================= Claim C10 ================= -/

/-- Claim C10: `validate_transaction` is total and never returns `Err`
whenever the loaded instruction's data decodes as a `JustifiedTransferTx` —
every load or verification failure is converted into a pair of error
`ValidationResult`s with `amount = None` — and when the data does not
decode, `process_transaction` unwraps the decode result and panics instead
of returning an error. -/
theorem transfer_validation_never_errs :
    (∀ (env : Env) (store : Store) (tx : JustifiedTransferTx)
       (mediator : String) (pb : EncryptedAmount) (txId : Nat),
      (∀ instr, alookup store.transferInstructions
          (txId, mediator, TransferTxState.Justification TxSubstate.Started) =
            some instr →
        (decodeJustifiedTransferTx instr.data).isSome = true) →
      ∃ out, validateTransaction env store tx mediator pb txId = Outcome.ok out) ∧
    (∀ (env : Env) (store : Store) (tx : JustifiedTransferTx)
       (mediator sender receiver tickerS ticker : String)
       (pb : EncryptedAmount) (txId n1 n2 : Nat) (instr : TransferInstruction)
       (mmemo : AccountMemo) (sopa ropa : OrderedPubAccount),
      alookup store.accountMap tx.content.content.init_data.content.memo.sndr_account_id =
        some (sender, tickerS, n1) →
      alookup store.accountMap tx.content.content.init_data.content.memo.rcvr_account_id =
        some (receiver, ticker, n2) →
      alookup store.transferInstructions
        (txId, mediator, TransferTxState.Justification TxSubstate.Started) = some instr →
      alookup store.mediatorAccounts mediator = some mmemo →
      alookup store.pubAccounts (sender, ticker) = some sopa →
      alookup store.pubAccounts (receiver, ticker) = some ropa →
      decodeJustifiedTransferTx instr.data = none →
      validateTransaction env store tx mediator pb txId = Outcome.panicked) ∧
    (∀ (env : Env) (store : Store) (tx : JustifiedTransferTx)
       (mediator sender receiver tickerS ticker : String)
       (pb : EncryptedAmount) (txId n1 n2 : Nat) (instr : TransferInstruction)
       (mmemo : AccountMemo) (sopa ropa : OrderedPubAccount)
       (dtx : JustifiedTransferTx),
      alookup store.accountMap tx.content.content.init_data.content.memo.sndr_account_id =
        some (sender, tickerS, n1) →
      alookup store.accountMap tx.content.content.init_data.content.memo.rcvr_account_id =
        some (receiver, ticker, n2) →
      alookup store.transferInstructions
        (txId, mediator, TransferTxState.Justification TxSubstate.Started) = some instr →
      alookup store.mediatorAccounts mediator = some mmemo →
      alookup store.pubAccounts (sender, ticker) = some sopa →
      alookup store.pubAccounts (receiver, ticker) = some ropa →
      decodeJustifiedTransferTx instr.data = some dtx →
      env.verifyTransferTx dtx sopa.pub_account ropa.pub_account
        mmemo.owner_sign_pub_key pb = false →
      validateTransaction env store tx mediator pb txId =
        Outcome.ok (store, ValidationResult.error sender ticker,
          ValidationResult.error receiver ticker)) := by
  refine ⟨?_, ?_, ?_⟩
  · intro env store tx mediator pb txId hinstr
    rcases hs : alookup store.accountMap
        tx.content.content.init_data.content.memo.sndr_account_id with
      _ | ⟨sender, tickerS, n1⟩
    · exact ⟨_, by simp only [validateTransaction, hs]; rfl⟩
    · rcases hr : alookup store.accountMap
          tx.content.content.init_data.content.memo.rcvr_account_id with
        _ | ⟨receiver, ticker, n2⟩
      · exact ⟨_, by simp only [validateTransaction, hs, hr]; rfl⟩
      · rcases hi : alookup store.transferInstructions
            (txId, mediator, TransferTxState.Justification TxSubstate.Started) with
          _ | instr
        · exact ⟨_, by simp only [validateTransaction, hs, hr, hi]; rfl⟩
        · rcases hm : alookup store.mediatorAccounts mediator with _ | mmemo
          · exact ⟨_, by simp only [validateTransaction, hs, hr, hi, hm]; rfl⟩
          · rcases hsa : alookup store.pubAccounts (sender, ticker) with _ | sopa
            · exact ⟨_, by simp only [validateTransaction, hs, hr, hi, hm, hsa]; rfl⟩
            · rcases hra : alookup store.pubAccounts (receiver, ticker) with _ | ropa
              · exact ⟨_, by simp only [validateTransaction, hs, hr, hi, hm, hsa, hra]; rfl⟩
              · rcases hd : decodeJustifiedTransferTx instr.data with _ | dtx
                · have hsome := hinstr instr hi
                  rw [hd] at hsome
                  cases hsome
                · cases hv : env.verifyTransferTx dtx sopa.pub_account
                      ropa.pub_account mmemo.owner_sign_pub_key pb
                  · exact ⟨_, by simp only [validateTransaction, hs, hr, hi, hm,
                      hsa, hra, hd, hv, Bool.false_eq_true, if_false]; rfl⟩
                  · exact ⟨_, by simp only [validateTransaction, hs, hr, hi, hm,
                      hsa, hra, hd, hv, if_true]; rfl⟩
  · intro env store tx mediator sender receiver tickerS ticker pb txId n1 n2
      instr mmemo sopa ropa h1 h2 h3 h4 h5 h6 h7
    simp only [validateTransaction, h1, h2, h3, h4, h5, h6, h7]
  · intro env store tx mediator sender receiver tickerS ticker pb txId n1 n2
      instr mmemo sopa ropa dtx h1 h2 h3 h4 h5 h6 h7 h8
    simp only [validateTransaction, h1, h2, h3, h4, h5, h6, h7, h8,
      Bool.false_eq_true, if_false]

/-- A store ready for one transfer validation: sender account id 1 is
("s", "T"), receiver account id 2 is ("r", "T"), the justified transfer is
stored under the mediator's name at tx id 5. -/
def storeTransfer : Store :=
  { accountMap := [(1, ("s", "T", 0)), (2, ("r", "T", 0))]
    pubAccounts := [(("s", "T"), ⟨samplePubAccount 1, some 0⟩),
                    (("r", "T"), ⟨samplePubAccount 2, some 0⟩)]
    mediatorAccounts := [("m", sampleMediatorMemo)]
    mediatorSecrets := []
    transferInstructions :=
      [((5, "m", TransferTxState.Justification TxSubstate.Started),
        ⟨TransferTxState.Justification TxSubstate.Started,
         TxData.justifiedTransfer sampleJustTx⟩)]
    assetInstructions := []
    accountTxs := []
    validAssetIds := []
    lastValidatedTxId := none }

/-- `storeTransfer` with undecodable instruction bytes. -/
def storeTransferBad : Store :=
  { storeTransfer with
    transferInstructions :=
      [((5, "m", TransferTxState.Justification TxSubstate.Started),
        ⟨TransferTxState.Justification TxSubstate.Started, TxData.garbage⟩)] }

/-- Witness for claim C10: the well-formed instruction yields an `ok`
outcome, the garbage instruction yields a panic. -/
theorem transfer_validation_never_errs_witness :
    (∃ out, validateTransaction trivEnv storeTransfer sampleJustTx "m"
      sampleCipher 5 = Outcome.ok out) ∧
    validateTransaction trivEnv storeTransferBad sampleJustTx "m"
      sampleCipher 5 = Outcome.panicked := by
  constructor
  · exact transfer_validation_never_errs.1 trivEnv storeTransfer sampleJustTx
      "m" sampleCipher 5
      (fun instr h => by injection h with h1; rw [← h1]; rfl)
  · exact transfer_validation_never_errs.2.1 trivEnv storeTransferBad
      sampleJustTx "m" "s" "r" "T" "T" sampleCipher 5 0 0 _ sampleMediatorMemo
      _ _ rfl rfl rfl rfl rfl rfl rfl

/- ================= Claim C3 ================= -/

/-- Claim C3: for a transfer transaction that the validator validates
successfully, the batch pass subtracts the transaction's
`enc_amount_using_sndr` ciphertext from the sender's `enc_balance` and adds
`enc_amount_using_rcvr` to the receiver's `enc_balance` (homomorphically,
as recorded in the saved `OrderedPubAccount`), and the transaction artifact
is written under `Justification(Validated)`. -/
theorem transfer_pass_commits_balances
    (env : Env) (store : Store) (tx : JustifiedTransferTx)
    (mediator sender receiver ticker : String)
    (txId sid rid n1 n2 : Nat) (amtS amtR : EncryptedAmount)
    (sopa ropa : OrderedPubAccount) (minst : TransferInstruction)
    (dtx : JustifiedTransferTx) (mmemo : AccountMemo) (os : OrderingState)
    (pb : EncryptedAmount) (d0 d1 d2 d3 d4 : Nat)
    (hm : tx.content.content.init_data.content.memo = ⟨sid, rid, amtS, amtR⟩)
    (hs : alookup store.accountMap sid = some (sender, ticker, n1))
    (hr : alookup store.accountMap rid = some (receiver, ticker, n2))
    (hsacc : alookup store.pubAccounts (sender, ticker) = some sopa)
    (hracc : alookup store.pubAccounts (receiver, ticker) = some ropa)
    (hos : env.lastOrderingState sender sopa.last_processed_tx_counter txId = some os)
    (hpb : env.computePendingBalance sender os sopa.last_processed_tx_counter
      sopa.pub_account.enc_balance = some pb)
    (hd0 : env.debugDecrypt sid pb = some d0)
    (hinst : alookup store.transferInstructions
      (txId, mediator, TransferTxState.Justification TxSubstate.Started) = some minst)
    (hmed : alookup store.mediatorAccounts mediator = some mmemo)
    (hdec : decodeJustifiedTransferTx minst.data = some dtx)
    (hver : env.verifyTransferTx dtx sopa.pub_account ropa.pub_account
      mmemo.owner_sign_pub_key pb = true)
    (hne : sender ≠ receiver) (hsna : sender ≠ "n/a") (hrna : receiver ≠ "n/a")
    (hd1 : env.debugDecrypt sopa.pub_account.id sopa.pub_account.enc_balance = some d1)
    (hd2 : env.debugDecrypt sopa.pub_account.id amtS = some d2)
    (hd3 : env.debugDecrypt ropa.pub_account.id ropa.pub_account.enc_balance = some d3)
    (hd4 : env.debugDecrypt ropa.pub_account.id amtR = some d4) :
    ∃ sF, validateAllPending env store
        [CoreTransaction.transferJustify tx txId mediator] =
        PassResult.succeeded sF ∧
      alookup sF.pubAccounts (sender, ticker) =
        some ⟨{ sopa.pub_account with
          enc_balance := sopa.pub_account.enc_balance - amtS }, some txId⟩ ∧
      alookup sF.pubAccounts (receiver, ticker) =
        some ⟨{ ropa.pub_account with
          enc_balance := ropa.pub_account.enc_balance + amtR }, some txId⟩ ∧
      alookup sF.transferInstructions
        (txId, sender, TransferTxState.Justification TxSubstate.Validated) =
        some ⟨TransferTxState.Justification TxSubstate.Validated, minst.data⟩ := by
  have hne2 : receiver ≠ sender := Ne.symm hne
  have hkey : ((receiver, ticker) : String × String) ≠ (sender, ticker) := by
    simp [Prod.mk.injEq, hne2]
  have hkey2 : ((sender, ticker) : String × String) ≠ (receiver, ticker) := by
    simp [Prod.mk.injEq, hne]
  have hstep : validateStep env ⟨store, [], none⟩
      (CoreTransaction.transferJustify tx txId mediator) =
      LoopOutcome.next ⟨{ store with
          transferInstructions :=
            asave store.transferInstructions
              (txId, sender, TransferTxState.Justification TxSubstate.Validated)
              ⟨TransferTxState.Justification TxSubstate.Validated, minst.data⟩ },
        [⟨sender, ticker, some amtS, Direction.Outgoing⟩,
         ⟨receiver, ticker, some amtR, Direction.Incoming⟩],
        some (Nat.max 0 txId)⟩ := by
    simp only [validateStep, hm, hs, hsacc, hracc, hos, hpb, hd0,
      validateTransaction, hr, hinst, hmed, hdec, hver, if_true,
      List.nil_append, Option.getD_none]
  have hloop : runLoop env ⟨store, [], none⟩
      [CoreTransaction.transferJustify tx txId mediator] =
      LoopOutcome.next ⟨{ store with
          transferInstructions :=
            asave store.transferInstructions
              (txId, sender, TransferTxState.Justification TxSubstate.Validated)
              ⟨TransferTxState.Justification TxSubstate.Validated, minst.data⟩ },
        [⟨sender, ticker, some amtS, Direction.Outgoing⟩,
         ⟨receiver, ticker, some amtR, Direction.Incoming⟩],
        some (Nat.max 0 txId)⟩ := by
    simp only [runLoop, hstep]
  have haccs : resultAccounts
      [⟨sender, ticker, some amtS, Direction.Outgoing⟩,
       ⟨receiver, ticker, some amtR, Direction.Incoming⟩] =
      [(sender, ticker), (receiver, ticker)] := by
    simp [resultAccounts, removeKey, hsna, hrna, Prod.mk.injEq, hne2]
  have hca1 : commitAccount env
      { store with
        transferInstructions :=
          asave store.transferInstructions
            (txId, sender, TransferTxState.Justification TxSubstate.Validated)
            ⟨TransferTxState.Justification TxSubstate.Validated, minst.data⟩ }
      [⟨sender, ticker, some amtS, Direction.Outgoing⟩,
       ⟨receiver, ticker, some amtR, Direction.Incoming⟩]
      (some (Nat.max 0 txId)) (sender, ticker) =
      Except.ok { store with
        transferInstructions :=
          asave store.transferInstructions
            (txId, sender, TransferTxState.Justification TxSubstate.Validated)
            ⟨TransferTxState.Justification TxSubstate.Validated, minst.data⟩,
        pubAccounts :=
          asave store.pubAccounts (sender, ticker)
            ⟨{ sopa.pub_account with
                enc_balance := sopa.pub_account.enc_balance - amtS },
              some (Nat.max 0 txId)⟩ } := by
    simp only [commitAccount, hsacc, hd1, applyResults, hd2, hd4, and_self,
      if_true, Prod.mk.injEq, hne2, false_and, if_false]
  have hca2 : commitAccount env
      { store with
        transferInstructions :=
          asave store.transferInstructions
            (txId, sender, TransferTxState.Justification TxSubstate.Validated)
            ⟨TransferTxState.Justification TxSubstate.Validated, minst.data⟩,
        pubAccounts :=
          asave store.pubAccounts (sender, ticker)
            ⟨{ sopa.pub_account with
                enc_balance := sopa.pub_account.enc_balance - amtS },
              some (Nat.max 0 txId)⟩ }
      [⟨sender, ticker, some amtS, Direction.Outgoing⟩,
       ⟨receiver, ticker, some amtR, Direction.Incoming⟩]
      (some (Nat.max 0 txId)) (receiver, ticker) =
      Except.ok { store with
        transferInstructions :=
          asave store.transferInstructions
            (txId, sender, TransferTxState.Justification TxSubstate.Validated)
            ⟨TransferTxState.Justification TxSubstate.Validated, minst.data⟩,
        pubAccounts :=
          asave (asave store.pubAccounts (sender, ticker)
              ⟨{ sopa.pub_account with
                  enc_balance := sopa.pub_account.enc_balance - amtS },
                some (Nat.max 0 txId)⟩)
            (receiver, ticker)
            ⟨{ ropa.pub_account with
                enc_balance := ropa.pub_account.enc_balance + amtR },
              some (Nat.max 0 txId)⟩ } := by
    have hlook : alookup
        (asave store.pubAccounts (sender, ticker)
          ⟨{ sopa.pub_account with
              enc_balance := sopa.pub_account.enc_balance - amtS },
            some (Nat.max 0 txId)⟩) (receiver, ticker) = some ropa := by
      rw [alookup_asave_ne _ _ _ _ hkey2]
      exact hracc
    simp only [commitAccount, hlook, hd3, applyResults, hd2, hd4, and_self,
      if_true, Prod.mk.injEq, hne, false_and, if_false]
  refine
    ⟨{ store with
        transferInstructions :=
          asave store.transferInstructions
            (txId, sender, TransferTxState.Justification TxSubstate.Validated)
            ⟨TransferTxState.Justification TxSubstate.Validated, minst.data⟩,
        pubAccounts :=
          asave (asave store.pubAccounts (sender, ticker)
              ⟨{ sopa.pub_account with
                  enc_balance := sopa.pub_account.enc_balance - amtS },
                some (Nat.max 0 txId)⟩)
            (receiver, ticker)
            ⟨{ ropa.pub_account with
                enc_balance := ropa.pub_account.enc_balance + amtR },
              some (Nat.max 0 txId)⟩,
        lastValidatedTxId := some (Nat.max 0 txId) },
     ?_, ?_, ?_, ?_⟩
  · unfold validateAllPending
    rw [hloop]
    dsimp only
    rw [haccs]
    simp only [commitList, hca1, hca2]
  · have hmax : Nat.max 0 txId = txId := Nat.max_eq_right (Nat.zero_le txId)
    rw [alookup_asave_ne _ _ _ _ hkey, alookup_asave_self, hmax]
  · have hmax : Nat.max 0 txId = txId := Nat.max_eq_right (Nat.zero_le txId)
    rw [alookup_asave_self, hmax]
  · exact alookup_asave_self _ _ _

/-- Witness for claim C3: the concrete transfer pass on `storeTransfer`
(sender "s", receiver "r", amount ciphertexts ⟨2, 3⟩ and ⟨4, 5⟩, tx id 5). -/
theorem transfer_pass_commits_balances_witness :
    ∃ sF, validateAllPending trivEnv storeTransfer
        [CoreTransaction.transferJustify sampleJustTx 5 "m"] =
        PassResult.succeeded sF ∧
      alookup sF.pubAccounts ("s", "T") =
        some ⟨{ samplePubAccount 1 with
          enc_balance := (samplePubAccount 1).enc_balance - ⟨2, 3⟩ }, some 5⟩ ∧
      alookup sF.pubAccounts ("r", "T") =
        some ⟨{ samplePubAccount 2 with
          enc_balance := (samplePubAccount 2).enc_balance + ⟨4, 5⟩ }, some 5⟩ ∧
      alookup sF.transferInstructions
        (5, "s", TransferTxState.Justification TxSubstate.Validated) =
        some ⟨TransferTxState.Justification TxSubstate.Validated,
          TxData.justifiedTransfer sampleJustTx⟩ :=
  transfer_pass_commits_balances trivEnv storeTransfer sampleJustTx "m" "s" "r"
    "T" 5 1 2 0 0 ⟨2, 3⟩ ⟨4, 5⟩ ⟨samplePubAccount 1, some 0⟩
    ⟨samplePubAccount 2, some 0⟩
    ⟨TransferTxState.Justification TxSubstate.Started,
      TxData.justifiedTransfer sampleJustTx⟩
    sampleJustTx sampleMediatorMemo ⟨some 0, 0, 5⟩ sampleCipher 0 0 0 0 0
    rfl rfl rfl rfl rfl rfl rfl rfl rfl rfl rfl rfl
    (by decide) (by decide) (by decide) rfl rfl rfl rfl

/- ================= Claim C4 ================= -/

/-- Claim C4: in a batch validation pass, a failure to validate one
transaction does not stop validation of the remaining transactions, and
balance updates are applied only for transactions whose validation
succeeded: in a pass over a failing transfer (its proof verification
rejects) followed by a succeeding one, the pass succeeds, the failing
transfer's sender and receiver keep their `enc_balance` unchanged, the
succeeding transfer's deltas are applied, its artifact is saved as
`Justification(Validated)`, and no `Validated` artifact appears for the
failing transfer. -/
theorem batch_continues_past_failure
    (env : Env) (store : Store) (tx1 tx2 : JustifiedTransferTx)
    (med1 med2 s1 r1 s2 r2 tk1 tk2 : String)
    (txId1 txId2 sid1 rid1 sid2 rid2 n1 n2 n3 n4 : Nat)
    (amtS1 amtR1 amtS2 amtR2 : EncryptedAmount)
    (sopa1 ropa1 sopa2 ropa2 : OrderedPubAccount)
    (minst1 minst2 : TransferInstruction) (dtx1 dtx2 : JustifiedTransferTx)
    (mmemo1 mmemo2 : AccountMemo) (os1 os2 : OrderingState)
    (pb1 pb2 : EncryptedAmount) (dp1 dp2 c1 c2 c3 c4 c5 c6 : Nat)
    (hm1 : tx1.content.content.init_data.content.memo = ⟨sid1, rid1, amtS1, amtR1⟩)
    (hm2 : tx2.content.content.init_data.content.memo = ⟨sid2, rid2, amtS2, amtR2⟩)
    (hs1 : alookup store.accountMap sid1 = some (s1, tk1, n1))
    (hr1 : alookup store.accountMap rid1 = some (r1, tk1, n2))
    (hs2 : alookup store.accountMap sid2 = some (s2, tk2, n3))
    (hr2 : alookup store.accountMap rid2 = some (r2, tk2, n4))
    (hacc1 : alookup store.pubAccounts (s1, tk1) = some sopa1)
    (hacc2 : alookup store.pubAccounts (r1, tk1) = some ropa1)
    (hacc3 : alookup store.pubAccounts (s2, tk2) = some sopa2)
    (hacc4 : alookup store.pubAccounts (r2, tk2) = some ropa2)
    (hos1 : env.lastOrderingState s1 sopa1.last_processed_tx_counter txId1 = some os1)
    (hpb1 : env.computePendingBalance s1 os1 sopa1.last_processed_tx_counter
      sopa1.pub_account.enc_balance = some pb1)
    (hdp1 : env.debugDecrypt sid1 pb1 = some dp1)
    (hinst1 : alookup store.transferInstructions
      (txId1, med1, TransferTxState.Justification TxSubstate.Started) = some minst1)
    (hmed1 : alookup store.mediatorAccounts med1 = some mmemo1)
    (hdec1 : decodeJustifiedTransferTx minst1.data = some dtx1)
    (hver1 : env.verifyTransferTx dtx1 sopa1.pub_account ropa1.pub_account
      mmemo1.owner_sign_pub_key pb1 = false)
    (hos2 : env.lastOrderingState s2 sopa2.last_processed_tx_counter txId2 = some os2)
    (hpb2 : env.computePendingBalance s2 os2 sopa2.last_processed_tx_counter
      sopa2.pub_account.enc_balance = some pb2)
    (hdp2 : env.debugDecrypt sid2 pb2 = some dp2)
    (hinst2 : alookup store.transferInstructions
      (txId2, med2, TransferTxState.Justification TxSubstate.Started) = some minst2)
    (hmed2 : alookup store.mediatorAccounts med2 = some mmemo2)
    (hdec2 : decodeJustifiedTransferTx minst2.data = some dtx2)
    (hver2 : env.verifyTransferTx dtx2 sopa2.pub_account ropa2.pub_account
      mmemo2.owner_sign_pub_key pb2 = true)
    (hd12 : s1 ≠ r1) (hd13 : s1 ≠ s2) (hd14 : s1 ≠ r2)
    (hd23 : r1 ≠ s2) (hd24 : r1 ≠ r2) (hd34 : s2 ≠ r2)
    (hna1 : s1 ≠ "n/a") (hna2 : r1 ≠ "n/a") (hna3 : s2 ≠ "n/a") (hna4 : r2 ≠ "n/a")
    (hc1 : env.debugDecrypt sopa1.pub_account.id sopa1.pub_account.enc_balance = some c1)
    (hc2 : env.debugDecrypt ropa1.pub_account.id ropa1.pub_account.enc_balance = some c2)
    (hc3 : env.debugDecrypt sopa2.pub_account.id sopa2.pub_account.enc_balance = some c3)
    (hc4 : env.debugDecrypt ropa2.pub_account.id ropa2.pub_account.enc_balance = some c4)
    (hc5 : env.debugDecrypt sopa2.pub_account.id amtS2 = some c5)
    (hc6 : env.debugDecrypt ropa2.pub_account.id amtR2 = some c6) :
    ∃ sF, validateAllPending env store
        [CoreTransaction.transferJustify tx1 txId1 med1,
         CoreTransaction.transferJustify tx2 txId2 med2] =
        PassResult.succeeded sF ∧
      alookup sF.pubAccounts (s1, tk1) =
        some ⟨sopa1.pub_account, some (Nat.max (Nat.max 0 txId1) txId2)⟩ ∧
      alookup sF.pubAccounts (r1, tk1) =
        some ⟨ropa1.pub_account, some (Nat.max (Nat.max 0 txId1) txId2)⟩ ∧
      alookup sF.pubAccounts (s2, tk2) =
        some ⟨{ sopa2.pub_account with
          enc_balance := sopa2.pub_account.enc_balance - amtS2 },
          some (Nat.max (Nat.max 0 txId1) txId2)⟩ ∧
      alookup sF.pubAccounts (r2, tk2) =
        some ⟨{ ropa2.pub_account with
          enc_balance := ropa2.pub_account.enc_balance + amtR2 },
          some (Nat.max (Nat.max 0 txId1) txId2)⟩ ∧
      alookup sF.transferInstructions
        (txId2, s2, TransferTxState.Justification TxSubstate.Validated) =
        some ⟨TransferTxState.Justification TxSubstate.Validated, minst2.data⟩ ∧
      alookup sF.transferInstructions
        (txId1, s1, TransferTxState.Justification TxSubstate.Validated) =
        alookup store.transferInstructions
          (txId1, s1, TransferTxState.Justification TxSubstate.Validated) := by
  have k21 : ((r1, tk1) : String × String) ≠ (s1, tk1) :=
    fun h => hd12 ((congrArg Prod.fst h).symm)
  have k31 : ((s2, tk2) : String × String) ≠ (s1, tk1) :=
    fun h => hd13 ((congrArg Prod.fst h).symm)
  have k41 : ((r2, tk2) : String × String) ≠ (s1, tk1) :=
    fun h => hd14 ((congrArg Prod.fst h).symm)
  have k32 : ((s2, tk2) : String × String) ≠ (r1, tk1) :=
    fun h => hd23 ((congrArg Prod.fst h).symm)
  have k42 : ((r2, tk2) : String × String) ≠ (r1, tk1) :=
    fun h => hd24 ((congrArg Prod.fst h).symm)
  have k43 : ((r2, tk2) : String × String) ≠ (s2, tk2) :=
    fun h => hd34 ((congrArg Prod.fst h).symm)
  have k12 : ((s1, tk1) : String × String) ≠ (r1, tk1) :=
    fun h => hd12 (congrArg Prod.fst h)
  have k13 : ((s1, tk1) : String × String) ≠ (s2, tk2) :=
    fun h => hd13 (congrArg Prod.fst h)
  have k23 : ((r1, tk1) : String × String) ≠ (s2, tk2) :=
    fun h => hd23 (congrArg Prod.fst h)
  have k14 : ((s1, tk1) : String × String) ≠ (r2, tk2) :=
    fun h => hd14 (congrArg Prod.fst h)
  have k24 : ((r1, tk1) : String × String) ≠ (r2, tk2) :=
    fun h => hd24 (congrArg Prod.fst h)
  have k34 : ((s2, tk2) : String × String) ≠ (r2, tk2) :=
    fun h => hd34 (congrArg Prod.fst h)
  have hstep1 : validateStep env ⟨store, [], none⟩
      (CoreTransaction.transferJustify tx1 txId1 med1) =
      LoopOutcome.next ⟨store,
        [ValidationResult.error s1 tk1, ValidationResult.error r1 tk1],
        some (Nat.max 0 txId1)⟩ := by
    simp only [validateStep, hm1, hs1, hacc1, hacc2, hos1, hpb1, hdp1,
      validateTransaction, hr1, hinst1, hmed1, hdec1, hver1,
      Bool.false_eq_true, if_false, List.nil_append, Option.getD_none]
  have hstep2 : validateStep env ⟨store,
      [ValidationResult.error s1 tk1, ValidationResult.error r1 tk1],
      some (Nat.max 0 txId1)⟩
      (CoreTransaction.transferJustify tx2 txId2 med2) =
      LoopOutcome.next ⟨{ store with
          transferInstructions :=
            asave store.transferInstructions
              (txId2, s2, TransferTxState.Justification TxSubstate.Validated)
              ⟨TransferTxState.Justification TxSubstate.Validated, minst2.data⟩ },
        [ValidationResult.error s1 tk1, ValidationResult.error r1 tk1,
         ⟨s2, tk2, some amtS2, Direction.Outgoing⟩,
         ⟨r2, tk2, some amtR2, Direction.Incoming⟩],
        some (Nat.max (Nat.max 0 txId1) txId2)⟩ := by
    simp only [validateStep, hm2, hs2, hacc3, hacc4, hos2, hpb2, hdp2,
      validateTransaction, hr2, hinst2, hmed2, hdec2, hver2, if_true,
      List.cons_append, List.nil_append, Option.getD_some]
  have hloop : runLoop env ⟨store, [], none⟩
      [CoreTransaction.transferJustify tx1 txId1 med1,
       CoreTransaction.transferJustify tx2 txId2 med2] =
      LoopOutcome.next ⟨{ store with
          transferInstructions :=
            asave store.transferInstructions
              (txId2, s2, TransferTxState.Justification TxSubstate.Validated)
              ⟨TransferTxState.Justification TxSubstate.Validated, minst2.data⟩ },
        [ValidationResult.error s1 tk1, ValidationResult.error r1 tk1,
         ⟨s2, tk2, some amtS2, Direction.Outgoing⟩,
         ⟨r2, tk2, some amtR2, Direction.Incoming⟩],
        some (Nat.max (Nat.max 0 txId1) txId2)⟩ := by
    simp only [runLoop, hstep1, hstep2]
  have haccs : resultAccounts
      [ValidationResult.error s1 tk1, ValidationResult.error r1 tk1,
       ⟨s2, tk2, some amtS2, Direction.Outgoing⟩,
       ⟨r2, tk2, some amtR2, Direction.Incoming⟩] =
      [(s1, tk1), (r1, tk1), (s2, tk2), (r2, tk2)] := by
    simp [resultAccounts, removeKey, ValidationResult.error, hna1, hna2, hna3,
      hna4, Prod.mk.injEq, Ne.symm hd12, Ne.symm hd13, Ne.symm hd14,
      Ne.symm hd23, Ne.symm hd24, Ne.symm hd34]
  have hca1 : commitAccount env
      { store with
        transferInstructions :=
          asave store.transferInstructions
            (txId2, s2, TransferTxState.Justification TxSubstate.Validated)
            ⟨TransferTxState.Justification TxSubstate.Validated, minst2.data⟩ }
      [ValidationResult.error s1 tk1, ValidationResult.error r1 tk1,
       ⟨s2, tk2, some amtS2, Direction.Outgoing⟩,
       ⟨r2, tk2, some amtR2, Direction.Incoming⟩]
      (some (Nat.max (Nat.max 0 txId1) txId2)) (s1, tk1) =
      Except.ok { store with
        transferInstructions :=
          asave store.transferInstructions
            (txId2, s2, TransferTxState.Justification TxSubstate.Validated)
            ⟨TransferTxState.Justification TxSubstate.Validated, minst2.data⟩,
        pubAccounts :=
          asave store.pubAccounts (s1, tk1)
            ⟨sopa1.pub_account, some (Nat.max (Nat.max 0 txId1) txId2)⟩ } := by
    simp [commitAccount, hacc1, hc1, applyResults, ValidationResult.error,
      Ne.symm hd12, Ne.symm hd13, Ne.symm hd14]
  have hca2 : commitAccount env
      { store with
        transferInstructions :=
          asave store.transferInstructions
            (txId2, s2, TransferTxState.Justification TxSubstate.Validated)
            ⟨TransferTxState.Justification TxSubstate.Validated, minst2.data⟩,
        pubAccounts :=
          asave store.pubAccounts (s1, tk1)
            ⟨sopa1.pub_account, some (Nat.max (Nat.max 0 txId1) txId2)⟩ }
      [ValidationResult.error s1 tk1, ValidationResult.error r1 tk1,
       ⟨s2, tk2, some amtS2, Direction.Outgoing⟩,
       ⟨r2, tk2, some amtR2, Direction.Incoming⟩]
      (some (Nat.max (Nat.max 0 txId1) txId2)) (r1, tk1) =
      Except.ok { store with
        transferInstructions :=
          asave store.transferInstructions
            (txId2, s2, TransferTxState.Justification TxSubstate.Validated)
            ⟨TransferTxState.Justification TxSubstate.Validated, minst2.data⟩,
        pubAccounts :=
          asave (asave store.pubAccounts (s1, tk1)
              ⟨sopa1.pub_account, some (Nat.max (Nat.max 0 txId1) txId2)⟩)
            (r1, tk1)
            ⟨ropa1.pub_account, some (Nat.max (Nat.max 0 txId1) txId2)⟩ } := by
    simp [commitAccount, alookup_asave_ne, alookup_asave_self, k12, hacc2, hc2,
      applyResults, ValidationResult.error, hd12, Ne.symm hd23, Ne.symm hd24]
  have hca3 : commitAccount env
      { store with
        transferInstructions :=
          asave store.transferInstructions
            (txId2, s2, TransferTxState.Justification TxSubstate.Validated)
            ⟨TransferTxState.Justification TxSubstate.Validated, minst2.data⟩,
        pubAccounts :=
          asave (asave store.pubAccounts (s1, tk1)
              ⟨sopa1.pub_account, some (Nat.max (Nat.max 0 txId1) txId2)⟩)
            (r1, tk1)
            ⟨ropa1.pub_account, some (Nat.max (Nat.max 0 txId1) txId2)⟩ }
      [ValidationResult.error s1 tk1, ValidationResult.error r1 tk1,
       ⟨s2, tk2, some amtS2, Direction.Outgoing⟩,
       ⟨r2, tk2, some amtR2, Direction.Incoming⟩]
      (some (Nat.max (Nat.max 0 txId1) txId2)) (s2, tk2) =
      Except.ok { store with
        transferInstructions :=
          asave store.transferInstructions
            (txId2, s2, TransferTxState.Justification TxSubstate.Validated)
            ⟨TransferTxState.Justification TxSubstate.Validated, minst2.data⟩,
        pubAccounts :=
          asave (asave (asave store.pubAccounts (s1, tk1)
                ⟨sopa1.pub_account, some (Nat.max (Nat.max 0 txId1) txId2)⟩)
              (r1, tk1)
              ⟨ropa1.pub_account, some (Nat.max (Nat.max 0 txId1) txId2)⟩)
            (s2, tk2)
            ⟨{ sopa2.pub_account with
                enc_balance := sopa2.pub_account.enc_balance - amtS2 },
              some (Nat.max (Nat.max 0 txId1) txId2)⟩ } := by
    simp [commitAccount, alookup_asave_ne, alookup_asave_self, k13, k23, hacc3,
      hc3, hc5, applyResults, ValidationResult.error, hd13, hd23, Ne.symm hd34]
  have hca4 : commitAccount env
      { store with
        transferInstructions :=
          asave store.transferInstructions
            (txId2, s2, TransferTxState.Justification TxSubstate.Validated)
            ⟨TransferTxState.Justification TxSubstate.Validated, minst2.data⟩,
        pubAccounts :=
          asave (asave (asave store.pubAccounts (s1, tk1)
                ⟨sopa1.pub_account, some (Nat.max (Nat.max 0 txId1) txId2)⟩)
              (r1, tk1)
              ⟨ropa1.pub_account, some (Nat.max (Nat.max 0 txId1) txId2)⟩)
            (s2, tk2)
            ⟨{ sopa2.pub_account with
                enc_balance := sopa2.pub_account.enc_balance - amtS2 },
              some (Nat.max (Nat.max 0 txId1) txId2)⟩ }
      [ValidationResult.error s1 tk1, ValidationResult.error r1 tk1,
       ⟨s2, tk2, some amtS2, Direction.Outgoing⟩,
       ⟨r2, tk2, some amtR2, Direction.Incoming⟩]
      (some (Nat.max (Nat.max 0 txId1) txId2)) (r2, tk2) =
      Except.ok { store with
        transferInstructions :=
          asave store.transferInstructions
            (txId2, s2, TransferTxState.Justification TxSubstate.Validated)
            ⟨TransferTxState.Justification TxSubstate.Validated, minst2.data⟩,
        pubAccounts :=
          asave (asave (asave (asave store.pubAccounts (s1, tk1)
                  ⟨sopa1.pub_account, some (Nat.max (Nat.max 0 txId1) txId2)⟩)
                (r1, tk1)
                ⟨ropa1.pub_account, some (Nat.max (Nat.max 0 txId1) txId2)⟩)
              (s2, tk2)
              ⟨{ sopa2.pub_account with
                  enc_balance := sopa2.pub_account.enc_balance - amtS2 },
                some (Nat.max (Nat.max 0 txId1) txId2)⟩)
            (r2, tk2)
            ⟨{ ropa2.pub_account with
                enc_balance := ropa2.pub_account.enc_balance + amtR2 },
              some (Nat.max (Nat.max 0 txId1) txId2)⟩ } := by
    simp [commitAccount, alookup_asave_ne, alookup_asave_self, k14, k24, k34,
      hacc4, hc4, hc6, applyResults, ValidationResult.error, hd14, hd24, hd34]
  refine
    ⟨{ store with
        transferInstructions :=
          asave store.transferInstructions
            (txId2, s2, TransferTxState.Justification TxSubstate.Validated)
            ⟨TransferTxState.Justification TxSubstate.Validated, minst2.data⟩,
        pubAccounts :=
          asave (asave (asave (asave store.pubAccounts (s1, tk1)
                  ⟨sopa1.pub_account, some (Nat.max (Nat.max 0 txId1) txId2)⟩)
                (r1, tk1)
                ⟨ropa1.pub_account, some (Nat.max (Nat.max 0 txId1) txId2)⟩)
              (s2, tk2)
              ⟨{ sopa2.pub_account with
                  enc_balance := sopa2.pub_account.enc_balance - amtS2 },
                some (Nat.max (Nat.max 0 txId1) txId2)⟩)
            (r2, tk2)
            ⟨{ ropa2.pub_account with
                enc_balance := ropa2.pub_account.enc_balance + amtR2 },
              some (Nat.max (Nat.max 0 txId1) txId2)⟩,
        lastValidatedTxId := some (Nat.max (Nat.max 0 txId1) txId2) },
     ?_, ?_, ?_, ?_, ?_, ?_, ?_⟩
  · unfold validateAllPending
    rw [hloop]
    dsimp only
    rw [haccs]
    simp only [commitList, hca1, hca2, hca3, hca4]
  · rw [alookup_asave_ne _ _ _ _ k41, alookup_asave_ne _ _ _ _ k31,
      alookup_asave_ne _ _ _ _ k21, alookup_asave_self]
  · rw [alookup_asave_ne _ _ _ _ k42, alookup_asave_ne _ _ _ _ k32,
      alookup_asave_self]
  · rw [alookup_asave_ne _ _ _ _ k43, alookup_asave_self]
  · exact alookup_asave_self _ _ _
  · exact alookup_asave_self _ _ _
  · have kI : ((txId2, s2, TransferTxState.Justification TxSubstate.Validated) :
        Nat × String × TransferTxState) ≠
        (txId1, s1, TransferTxState.Justification TxSubstate.Validated) :=
      fun h => hd13 ((congrArg (fun k => k.2.1) h).symm)
    rw [alookup_asave_ne _ _ _ _ kI]

/-- A second concrete transfer (sender account 11, receiver account 12). -/
def sampleTransferMemo2 : TransferMemo := ⟨11, 12, ⟨6, 7⟩, ⟨8, 9⟩⟩

/-- A second concrete initialized transfer transaction. -/
def sampleInitTx2 : InitializedTransferTx :=
  ⟨⟨sampleTransferMemo2⟩, ⟨"mercat/transaction", 3, ⟨sampleTransferMemo2⟩⟩⟩

/-- A second concrete finalized transfer transaction. -/
def sampleFinalTx2 : FinalizedTransferTx :=
  ⟨⟨sampleInitTx2⟩, ⟨"mercat/transaction", 4, ⟨sampleInitTx2⟩⟩⟩

/-- A second concrete justified transfer transaction. -/
def sampleJustTx2 : JustifiedTransferTx :=
  ⟨sampleFinalTx2, ⟨"mercat/transaction", 9, sampleFinalTx2⟩⟩

/-- An environment that rejects the first sample transfer and accepts the
second. -/
def selectiveEnv : Env :=
  { trivEnv with
    verifyTransferTx := fun dtx _ _ _ _ => decide (dtx = sampleJustTx2) }

/-- A store holding two pending transfers: tx id 5 (accounts "s", "r") and
tx id 6 (accounts "s2", "r2"), both justified under mediator "m". -/
def storeBatch : Store :=
  { accountMap := [(1, ("s", "T", 0)), (2, ("r", "T", 0)),
                   (11, ("s2", "T", 0)), (12, ("r2", "T", 0))]
    pubAccounts := [(("s", "T"), ⟨samplePubAccount 1, some 0⟩),
                    (("r", "T"), ⟨samplePubAccount 2, some 0⟩),
                    (("s2", "T"), ⟨samplePubAccount 11, some 0⟩),
                    (("r2", "T"), ⟨samplePubAccount 12, some 0⟩)]
    mediatorAccounts := [("m", sampleMediatorMemo)]
    mediatorSecrets := []
    transferInstructions :=
      [((5, "m", TransferTxState.Justification TxSubstate.Started),
        ⟨TransferTxState.Justification TxSubstate.Started,
         TxData.justifiedTransfer sampleJustTx⟩),
       ((6, "m", TransferTxState.Justification TxSubstate.Started),
        ⟨TransferTxState.Justification TxSubstate.Started,
         TxData.justifiedTransfer sampleJustTx2⟩)]
    assetInstructions := []
    accountTxs := []
    validAssetIds := []
    lastValidatedTxId := none }

/-- Witness for claim C4: the concrete pass over the rejected transfer
(tx 5) and the accepted transfer (tx 6). -/
theorem batch_continues_past_failure_witness :
    ∃ sF, validateAllPending selectiveEnv storeBatch
        [CoreTransaction.transferJustify sampleJustTx 5 "m",
         CoreTransaction.transferJustify sampleJustTx2 6 "m"] =
        PassResult.succeeded sF ∧
      alookup sF.pubAccounts ("s", "T") = some ⟨samplePubAccount 1, some 6⟩ ∧
      alookup sF.pubAccounts ("r", "T") = some ⟨samplePubAccount 2, some 6⟩ ∧
      alookup sF.pubAccounts ("s2", "T") =
        some ⟨{ samplePubAccount 11 with
          enc_balance := (samplePubAccount 11).enc_balance - ⟨6, 7⟩ }, some 6⟩ ∧
      alookup sF.pubAccounts ("r2", "T") =
        some ⟨{ samplePubAccount 12 with
          enc_balance := (samplePubAccount 12).enc_balance + ⟨8, 9⟩ }, some 6⟩ ∧
      alookup sF.transferInstructions
        (6, "s2", TransferTxState.Justification TxSubstate.Validated) =
        some ⟨TransferTxState.Justification TxSubstate.Validated,
          TxData.justifiedTransfer sampleJustTx2⟩ ∧
      alookup sF.transferInstructions
        (5, "s", TransferTxState.Justification TxSubstate.Validated) = none :=
  batch_continues_past_failure selectiveEnv storeBatch sampleJustTx
    sampleJustTx2 "m" "m" "s" "r" "s2" "r2" "T" "T" 5 6 1 2 11 12 0 0 0 0
    ⟨2, 3⟩ ⟨4, 5⟩ ⟨6, 7⟩ ⟨8, 9⟩
    ⟨samplePubAccount 1, some 0⟩ ⟨samplePubAccount 2, some 0⟩
    ⟨samplePubAccount 11, some 0⟩ ⟨samplePubAccount 12, some 0⟩
    ⟨TransferTxState.Justification TxSubstate.Started,
      TxData.justifiedTransfer sampleJustTx⟩
    ⟨TransferTxState.Justification TxSubstate.Started,
      TxData.justifiedTransfer sampleJustTx2⟩
    sampleJustTx sampleJustTx2 sampleMediatorMemo sampleMediatorMemo
    ⟨some 0, 0, 5⟩ ⟨some 0, 0, 6⟩ sampleCipher sampleCipher 0 0 0 0 0 0 0 0
    rfl rfl rfl rfl rfl rfl rfl rfl rfl rfl rfl rfl rfl rfl rfl rfl
    (by decide) rfl rfl rfl rfl rfl rfl (by decide)
    (by decide) (by decide) (by decide) (by decide) (by decide) (by decide)
    (by decide) (by decide) (by decide) (by decide)
    rfl rfl rfl rfl rfl rfl

/-- Witness for claim C1 (as amended) at value 13, blinding 2, public key 5,
generators ⟨1, 3⟩, randomness 7, challenge 11. -/
theorem correctness_proof_completeness_witness :
    CorrectnessVerifier.verify
      { value := 13, pub_key := 5,
        cipher := verifierEncrypt 5 { B := 1, B_blinding := 3 }
          { value := (13 : Nat), blinding := 2 },
        pc_gens := { B := 1, B_blinding := 3 } }
      11
      (generateInitialMessage 5 { B := 1, B_blinding := 3 }
        { value := (13 : Nat), blinding := 2 } 7).2
      (applyChallenge
        (generateInitialMessage 5 { B := 1, B_blinding := 3 }
          { value := (13 : Nat), blinding := 2 } 7).1 11) =
    Except.ok () :=
  correctness_proof_completeness 13 2 5 { B := 1, B_blinding := 3 } 7 11

/-- Witness for claim C2 at a concrete verifier state where the first check
fails. -/
theorem correctness_verify_characterization_witness :
    (CorrectnessVerifier.verify
        { value := 0, pub_key := 5, cipher := ⟨3, 5⟩,
          pc_gens := { B := 1, B_blinding := 3 } } 1 ⟨0, 0⟩ 1 =
        Except.error (AssetProofError.correctnessFinalResponseVerificationError 1) ↔
      ¬ (1 : Scalar) * 5 = 0 + 1 * 3) :=
  (correctness_verify_characterization
    { value := 0, pub_key := 5, cipher := ⟨3, 5⟩,
      pc_gens := { B := 1, B_blinding := 3 } } 1 ⟨0, 0⟩ 1).2.1

/-- Witness for claim C8 at the concrete sample transactions. -/
theorem cheat_resigning_asymmetry_witness :
    ((cheatCreateAccountStrategy1 sampleAccountTx).content.pub_account.id =
        7 + 1 ∧
      (cheatCreateAccountStrategy1 sampleAccountTx).sig = sampleAccountTx.sig) ∧
    ((cheatCreateTxStrategy1 sampleInitTx 21).content.memo.sndr_account_id =
        1 + 1 ∧
      (cheatCreateTxStrategy1 sampleInitTx 21).sig =
        { ctx := "mercat/transaction", key := 21,
          msg := (cheatCreateTxStrategy1 sampleInitTx 21).content }) ∧
    ((cheatJustifyTransfer sampleJustTx 9).content.content.init_data.content.memo.sndr_account_id =
        1 + 1 ∧
      (cheatJustifyTransfer sampleJustTx 9).sig =
        { ctx := "mercat/transaction", key := 9,
          msg := (cheatJustifyTransfer sampleJustTx 9).content }) :=
  ⟨cheat_resigning_asymmetry.1 sampleAccountTx,
   cheat_resigning_asymmetry.2.1 sampleInitTx 21,
   cheat_resigning_asymmetry.2.2 sampleJustTx 9⟩
